import Mathlib

/-!
Verification development for the `rustwhy` diagnostic framework.

This file is a shallow embedding, in Lean 4, of the Rust sources under
`src/`: the severity lattice (`src/core/severity.rs`), the report model
(`src/core/report.rs`), the runner (`src/core/runner.rs`), the module
registry (`src/modules/mod.rs`) and the thirteen diagnostic modules'
`run` implementations.

Embedding conventions:
* Ambient reads of the outside world (files under `/proc` and `/sys`,
  external command output, the `sysinfo` snapshot, the system clock) are
  fields of an explicit `World` record that every `run` receives; the Rust
  functions read the same data through `std::fs` and helper crates.
* Machine integers (`u64`, `i64`, `u8`, `usize`) are modelled as `Nat`/`Int`;
  the programs only ever count, add saturatingly, or compare, so no wraparound
  is observable in the modelled paths.  `f64`/`f32` values are modelled as
  `Rat`; their exact parsing/printing width is display-only in the source.
* External libraries (the `regex` crate, `serde_json`, `bytesize` rendering,
  `walkdir` iteration errors) are modelled as world-supplied oracles: the
  theorems below hold for every behaviour of those oracles.
* Rust `Result<T>` with an observable error message is `Except String T`;
  `Result<T>` whose error content is discarded by the caller, and
  `Option<T>`, are both `Option T`.
-/

namespace Rustwhy

/-! ## Severity (`src/core/severity.rs`) -/

/-- The four severity levels, declared in the source order
`Ok < Info < Warning < Critical`. -/
inductive Severity where
  | ok
  | info
  | warning
  | critical
deriving Repr, DecidableEq, Inhabited, Fintype

namespace Severity

/-- Rank of a severity under the derived `Ord` instance: the declaration
order of the Rust enum.  The spec asks for an explicit rank function. -/
def rank : Severity → Nat
  | .ok => 0
  | .info => 1
  | .warning => 2
  | .critical => 3

/-- `Severity::max`: `if self > other { self } else { other }`, where `>` is
the derived order, i.e. comparison of ranks. -/
def max (a b : Severity) : Severity :=
  if b.rank < a.rank then a else b

/-- `Severity::label`. -/
def label : Severity → String
  | .ok => "OK"
  | .info => "INFO"
  | .warning => "WARNING"
  | .critical => "CRITICAL"

/-- The derived `>=` on `Severity` (used by the gpu and temp modules). -/
def ge (a b : Severity) : Bool :=
  b.rank ≤ a.rank

end Severity

/-! ## Report model (`src/core/report.rs`) -/

/-- A single finding (observation) from the diagnostic. -/
structure Finding where
  severity : Severity
  category : String
  message : String
  details : Option String
deriving Repr, DecidableEq

/-- A recommended action for the user (`priority`: 1 = highest). -/
structure Recommendation where
  priority : Nat
  action : String
  command : Option String
  explanation : String
deriving Repr, DecidableEq

/-- Value of a metric (tagged union from the source; `Float` is modelled
as `Rat`). -/
inductive MetricValue where
  | integer (i : Int)
  | float (q : Rat)
  | text (s : String)
  | boolean (b : Bool)
  | list (l : List String)
deriving Repr, DecidableEq

/-- Warning and critical thresholds for numeric metrics. -/
structure Threshold where
  warning : Rat
  critical : Rat
deriving Repr, DecidableEq

/-- A named metric with optional unit and thresholds. -/
structure Metric where
  name : String
  value : MetricValue
  unit : Option String
  threshold : Option Threshold
deriving Repr, DecidableEq

/-- Top-level report produced by a diagnostic module.  `timestamp` is the
clock value observed at construction, modelled as a `Nat`; `raw_data` is the
opaque JSON payload, modelled as an uninterpreted string. -/
structure DiagnosticReport where
  module : String
  timestamp : Nat
  overall_severity : Severity
  summary : String
  findings : List Finding
  recommendations : List Recommendation
  metrics : List Metric
  raw_data : Option String
deriving Repr, DecidableEq

namespace DiagnosticReport

/-- `DiagnosticReport::new(module, summary)`: empty collections, overall
severity `Ok`, timestamp taken from the ambient clock `now`. -/
def new (module : String) (summary : String) (now : Nat) : DiagnosticReport :=
  { module := module
    timestamp := now
    overall_severity := .ok
    summary := summary
    findings := []
    recommendations := []
    metrics := []
    raw_data := none }

/-- `compute_overall_severity`: set overall severity from the fold of
`Severity::max` over the findings' severities, starting at `Ok`. -/
def compute_overall_severity (r : DiagnosticReport) : DiagnosticReport :=
  { r with overall_severity :=
      (r.findings.map (fun f => f.severity)).foldl Severity.max .ok }

/-- `add_finding`: push the finding and update the overall severity with
`Severity::max`. -/
def add_finding (r : DiagnosticReport) (f : Finding) : DiagnosticReport :=
  { r with overall_severity := r.overall_severity.max f.severity
           findings := r.findings ++ [f] }

/-- `add_recommendation`: push, touching nothing else. -/
def add_recommendation (r : DiagnosticReport) (rec : Recommendation) :
    DiagnosticReport :=
  { r with recommendations := r.recommendations ++ [rec] }

/-- `add_metric`: push, touching nothing else. -/
def add_metric (r : DiagnosticReport) (m : Metric) : DiagnosticReport :=
  { r with metrics := r.metrics ++ [m] }

/-- The `overall_severity` invariant of the report model: the overall
severity equals the `Severity::max`-fold over the findings' severities
(`Ok` when there are none). -/
def SevInv (r : DiagnosticReport) : Prop :=
  r.overall_severity = (r.findings.map (fun f => f.severity)).foldl Severity.max .ok

instance (r : DiagnosticReport) : Decidable r.SevInv := by
  unfold SevInv; infer_instance

end DiagnosticReport

/-! ## String/parsing utilities (`src/utils/parse.rs`, plus the `str`
operations the modules use).  Rust byte indices are modelled as character
indices; the two agree on which occurrence is found and what the
surrounding slices contain. -/

/-- `str::lines`: split on `'\n'`, strip a trailing `'\r'` from each line,
and do not yield a final empty line after a trailing newline. -/
def rustLines (s : String) : List String :=
  let parts := s.splitOn "\n"
  let parts :=
    match parts.reverse with
    | "" :: rest => rest.reverse
    | _ => parts
  parts.map (fun l => if l.endsWith "\r" then l.dropRight 1 else l)

/-- `str::split_whitespace`: maximal non-whitespace tokens. -/
def splitWs (s : String) : List String :=
  (s.split (fun c => c.isWhitespace)).filter (fun t => t ≠ "")

/-- All suffixes of a character list (including the list itself and `[]`). -/
def charTails : List Char → List (List Char)
  | [] => [[]]
  | c :: cs => (c :: cs) :: charTails cs

/-- `str::contains(&str)`: some suffix starts with the pattern. -/
def containsSub (s pat : String) : Bool :=
  (charTails s.toList).any (fun t => pat.toList.isPrefixOf t)

/-- `str::find(&str)`: index (in characters) of the first occurrence. -/
def findSub (s pat : String) : Option Nat :=
  (List.range (s.toList.length + 1)).find?
    (fun i => pat.toList.isPrefixOf (s.toList.drop i))

/-- The suffix of `s` after the first occurrence of `pat`
(`&line[start + pat.len()..]` following `line.find(pat)`). -/
def afterSub (s pat : String) : Option String :=
  (findSub s pat).map (fun i => String.mk (s.toList.drop (i + pat.toList.length)))

/-- `str::find(char)`. -/
def findChar (s : String) (c : Char) : Option Nat :=
  s.toList.findIdx? (fun x => x == c)

/-- `&rest[..rest.find(c).unwrap_or(rest.len())]`. -/
def takeBeforeCharOrAll (s : String) (c : Char) : String :=
  match findChar s c with
  | some i => String.mk (s.toList.take i)
  | none => s

/-- Digits-only numeral read (value of a possibly empty digit string). -/
def decDigits? (t : String) : Option Nat :=
  if t.all Char.isDigit then
    some (t.foldl (fun n c => 10 * n + (c.toNat - 48)) 0)
  else none

/-- `str::parse::<f64>()` on the plain decimal notations that occur in the
modelled inputs (optional sign, digits, optional fractional part); exponent
and non-finite forms are outside the modelled input space. -/
def parseDecimal (s : String) : Option Rat :=
  let signBody : Rat × String :=
    if s.startsWith "-" then (-1, s.drop 1)
    else if s.startsWith "+" then (1, s.drop 1)
    else (1, s)
  match (signBody.2).splitOn "." with
  | [ip] =>
      if ip = "" then none
      else (decDigits? ip).map (fun n => signBody.1 * n)
  | [ip, fp] =>
      if ip = "" ∧ fp = "" then none
      else
        match decDigits? ip, decDigits? fp with
        | some n, some f =>
            some (signBody.1 * ((n : Rat) + (f : Rat) / (10 : Rat) ^ fp.length))
        | _, _ => none
  | _ => none

/-- `utils::parse::parse_key_value`: trim the line, split at the first
colon, take the first whitespace token after it. -/
def parse_key_value (line : String) : Option (String × String) :=
  let line := line.trim
  match findChar line ':' with
  | none => none
  | some i =>
      let k := String.mk (line.toList.take i)
      let v := String.mk (line.toList.drop (i + 1))
      match splitWs v with
      | [] => none
      | t :: _ => some (k.trim, t)

/-- `parse_key_value_as::<u64>`. -/
def parse_key_value_nat (line : String) : Option (String × Nat) :=
  match parse_key_value line with
  | none => none
  | some (k, v) => (v.toNat?).map (fun n => (k, n))

/-- `HashMap::insert` on the association-list model of a string-keyed map:
replace an existing binding, otherwise append. -/
def insertKV (m : List (String × Nat)) (k : String) (v : Nat) :
    List (String × Nat) :=
  if m.any (fun p => p.1 == k) then
    m.map (fun p => if p.1 == k then (k, v) else p)
  else m ++ [(k, v)]

/-- `HashMap::get` on the association-list model. -/
def getKV (m : List (String × Nat)) (k : String) : Option Nat :=
  (m.find? (fun p => p.1 == k)).map (fun p => p.2)

/-- `str::trim_start_matches` on character lists: repeatedly strip a
leading occurrence of the (non-empty) pattern. -/
def trimStartList (l pat : List Char) : List Char :=
  if h : pat ≠ [] ∧ pat.isPrefixOf l then
    trimStartList (l.drop pat.length) pat
  else l
termination_by l.length
decreasing_by
  have hpre := List.isPrefixOf_iff_prefix.mp h.2
  have hle := hpre.length_le
  have hpos : 0 < pat.length := List.length_pos.mpr h.1
  simp only [List.length_drop]
  omega

/-- `str::trim_start_matches`. -/
def trimStartMatches (s pat : String) : String :=
  String.mk (trimStartList s.toList pat.toList)

/-- `u64::saturating_sub` (`Nat` subtraction is already saturating). -/
def saturating_sub (a b : Nat) : Nat := a - b

/-! ## Module configuration (`src/core/traits.rs`) -/

/-- Permission or capability required by a module. -/
inductive Permission where
  | root
  | readProc
  | readSys
  | netAdmin
  | perfEvent
deriving Repr, DecidableEq

/-- Configuration passed to each module when running.  `extra_args` is the
open string-to-string map, modelled as an association list with unique
keys looked up by first match. -/
structure ModuleConfig where
  verbose : Bool
  watch : Bool
  interval : Nat
  top_n : Nat
  json_output : Bool
  extra_args : List (String × String)
deriving Repr, DecidableEq

namespace ModuleConfig

/-- `ModuleConfig::default()`. -/
def default : ModuleConfig :=
  { verbose := false
    watch := false
    interval := 2
    top_n := 10
    json_output := false
    extra_args := [] }

/-- `config.extra_args.get(k)`. -/
def getExtra (cfg : ModuleConfig) (k : String) : Option String :=
  (cfg.extra_args.find? (fun p => p.1 == k)).map (fun p => p.2)

end ModuleConfig

/-! ## The ambient world

One record collecting every outside-world observation the thirteen modules
can make.  Each field corresponds to a read the Rust code performs through
`std::fs`, `std::process`, the `sysinfo` crate, or an external library;
`Option` marks a fallible read whose error content the caller discards,
`Except String` a fallible read whose error message the caller displays. -/

/-- One entry of `/sys/class/power_supply` as the batt module observes it:
`file_name()` and the first lines of the attribute files it reads. -/
structure PsEntry where
  fileName : Option String
  typeAttr : Option String
  statusAttr : Option String
  capacityAttr : Option String
  energyNowAttr : Option String
  powerNowAttr : Option String

/-- One process of the `sysinfo` snapshot (used by the cpu and mem
modules): pid, name, CPU usage, resident memory in bytes, user id. -/
structure ProcInfo where
  pid : Nat
  name : String
  cpuUsage : Rat
  memory : Nat
  userId : Option String

/-- One file inside a `/sys/class/hwmon` entry (fan and temp modules):
`file_name()` and the first line of its content. -/
structure HwmonSub where
  fileName : Option String
  content : Option String

/-- One `/sys/class/hwmon` entry: `file_name()`, the first line of its
`name` file, and its directory listing. -/
structure HwmonEntry where
  fileName : Option String
  nameFile : Option String
  subEntries : Option (List HwmonSub)

/-- One `/sys/class/thermal` entry (temp module). -/
structure ThermalZone where
  fileName : Option String
  typeFile : Option String
  tempFile : Option String

/-- One subdirectory of a drm device's `hwmon` directory (gpu module),
with the sensor files the code reads from it. -/
structure HwmonDev where
  fileName : Option String
  temp1Input : Option String
  power1Average : Option String
  fan1Input : Option String

/-- One `/sys/class/drm` entry with everything the gpu module can read
beneath it. -/
structure DrmDevice where
  fileName : Option String
  deviceExists : Bool
  vendorFile : Option String
  canonical : Option String
  uevent : Option String
  deviceFile : Option String
  memInfoVramTotal : Option String
  memInfoVramUsed : Option String
  hwmonDirExists : Bool
  hwmonSubdirs : Option (List HwmonDev)

/-- A filesystem subtree as `walkdir` would traverse it (disk module).
`okEntry` is whether the iterator yields `Ok` for this entry, `metaOk`
whether `metadata()` succeeds. -/
inductive FsNode where
  | node (okEntry : Bool) (fileName : String) (path : String)
      (parent : Option String) (metaOk : Bool) (isFile : Bool) (size : Nat)
      (children : List FsNode)

namespace FsNode

def okEntry : FsNode → Bool | .node b _ _ _ _ _ _ _ => b
def fileName : FsNode → String | .node _ n _ _ _ _ _ _ => n
def path : FsNode → String | .node _ _ p _ _ _ _ _ => p
def parent : FsNode → Option String | .node _ _ _ p _ _ _ _ => p
def metaOk : FsNode → Bool | .node _ _ _ _ m _ _ _ => m
def isFile : FsNode → Bool | .node _ _ _ _ _ f _ _ => f
def size : FsNode → Nat | .node _ _ _ _ _ _ s _ => s
def children : FsNode → List FsNode | .node _ _ _ _ _ _ _ c => c

end FsNode

/-- The ambient world.  Function-valued fields are oracles: the theorems
below hold for every behaviour of the external commands, regexes, JSON
parser and renderers they model. -/
structure World where
  /-- The system clock (`Utc::now()`), as an abstract tick. -/
  now : Nat
  /-- `utils::system::command_exists` (`which`). -/
  commandExists : String → Bool
  /-- `utils::system::run_cmd`: `some stdout` on success, `none` on any
  failure (the callers all discard the error). -/
  runCmd : List String → Option String
  /-- Rendering of `utils::format::format_bytes` (the `bytesize` crate). -/
  formatBytesR : Nat → String
  /-- Rendering of a float at a given precision in `format!` strings. -/
  fmtFloat : Nat → Rat → String
  /-- Rendering of a float with the default `Display` format. -/
  fmtFloatD : Rat → String
  /-- boot: capture 1 of `(\d+\.?\d*)\s*s` on a line, parsed as `f64`
  (`none` also covers a failed regex build). -/
  reBootTimeCap : String → Option Rat
  /-- boot: captures of `^\s*(\d+\.?\d*)\s*(.+)\.service` on a line, with
  the source's defaults `0.0` / `""` applied to missing groups. -/
  reBlameCap : String → Option (Rat × String)
  /-- gpu: `serde_json` view of `intel_gpu_top -J` output:
  `engines."Render/3D".busy` and `frequency.actual`. -/
  intelGpuJson : String → Option (Option Rat × Option Nat)
  /-- batt: `/sys/class/power_supply` existence. -/
  powerSupplyExists : Bool
  /-- batt: `list_dir("/sys/class/power_supply")`. -/
  powerSupplyEntries : Option (List PsEntry)
  /-- mem: `read_to_string("/proc/meminfo")`. -/
  meminfoRead : Except String String
  /-- cpu: per-cpu usage from the refreshed `sysinfo` snapshot. -/
  cpus : List Rat
  /-- cpu: load averages. -/
  loadOne : Rat
  loadFive : Rat
  loadFifteen : Rat
  /-- cpu/mem: the `sysinfo` process table. -/
  processes : List ProcInfo
  /-- io: `read_to_string("/proc/diskstats")`. -/
  diskstatsRead : Option String
  /-- io: names of the entries of `read_dir("/proc")` (with `flatten`
  already dropping per-entry errors). -/
  procDirNames : Option (List String)
  /-- io: `read_to_string("/proc/<pid>/io")`. -/
  procIoRead : Nat → Option String
  /-- io: `read_to_string("/proc/<pid>/comm")`. -/
  procCommRead : Nat → Option String
  /-- disk: the filesystem subtree rooted at a path, `none` when the path
  does not exist. -/
  diskTree : String → Option FsNode
  /-- fan/temp: `/sys/class/hwmon` existence and listing. -/
  hwmonExists : Bool
  hwmonEntriesRead : Option (List HwmonEntry)
  /-- temp: `/sys/class/thermal` existence and listing. -/
  thermalExists : Bool
  thermalZonesRead : Option (List ThermalZone)
  /-- gpu: `/sys/class/drm` existence and listing. -/
  drmExists : Bool
  drmEntriesRead : Option (List DrmDevice)
  /-- mount: `read_to_string("/proc/mounts")`. -/
  mountsRead : Except String String
  /-- mount: `read_file_optional("/etc/fstab")`, quotiented to the cases
  the caller distinguishes (`some` content vs. anything else). -/
  fstabRead : Option String
  /-- net: output of `ping -c 3 -W 2 <host>`: stdout and `status.success()`. -/
  pingOutput : String → Option (String × Bool)
  /-- net: `read_to_string("/proc/net/dev")`. -/
  procNetDevRead : Option String
  /-- sleep: `/sys/power/wakeup_count` existence and content. -/
  wakeupExists : Bool
  wakeupRead : Option String
  /-- usb: `/sys/bus/usb/devices` existence and entry names. -/
  sysUsbExists : Bool
  sysUsbEntriesRead : Option (List (Option String))

/-- `utils::format::format_bytes` (delegates to the `bytesize` oracle). -/
def format_bytes (w : World) (n : Nat) : String := w.formatBytesR n

/-! ## Module contract and runner (`src/core/traits.rs`, `src/core/runner.rs`) -/

/-- The `DiagnosticModule` trait: identity, availability, permissions and
the `run` operation.  The trait defaults (`required_permissions` empty,
`is_available` true) are the field defaults. -/
structure ModuleImpl where
  name : String
  description : String
  run : World → ModuleConfig → Except String DiagnosticReport
  required_permissions : List Permission := []
  is_available : World → Bool := fun _ => true

/-- `runner::run_module`: fail with the unavailability message when
`is_available()` is false, otherwise delegate to `run`. -/
def run_module (w : World) (m : ModuleImpl) (cfg : ModuleConfig) :
    Except String DiagnosticReport :=
  if ¬ m.is_available w then
    .error ("Module " ++ m.name ++ " is not available on this system")
  else
    m.run w cfg

/-- `runner::run_all_modules`: run each module in order, pushing each
outcome. -/
def run_all_modules (w : World) (modules : List ModuleImpl)
    (cfg : ModuleConfig) : List (Except String DiagnosticReport) :=
  match modules with
  | [] => []
  | m :: rest => run_module w m cfg :: run_all_modules w rest cfg

/-! ## The batt module (`src/modules/batt.rs`) -/

/-- The battery test of the loop body:
`type_.to_lowercase().contains("battery")` with
`read_power_supply_attr(..).unwrap_or_default()`. -/
def isBatteryEntry (e : PsEntry) : Bool :=
  containsSub (e.typeAttr.getD "").toLower "battery"

/-- One iteration of the `for entry in entries` loop of `BattModule::run`;
the accumulator carries `(report, has_battery)`. -/
def battEntryStep (cfg : ModuleConfig) (acc : DiagnosticReport × Bool)
    (e : PsEntry) : DiagnosticReport × Bool :=
  if isBatteryEntry e then
    let report := acc.1
    let name := e.fileName.getD ""
    let report :=
      match e.statusAttr with
      | some status => report.add_metric ⟨name ++ " status", .text status, none, none⟩
      | none => report
    let report :=
      match e.capacityAttr with
      | some cap =>
          match cap.trim.toInt? with
          | some pct =>
              let report := report.add_metric
                ⟨name ++ " capacity", .integer pct, some "%", some ⟨20, 10⟩⟩
              if pct < 10 then
                report.add_finding ⟨.warning, "batt",
                  "Battery at " ++ toString pct ++ "% – very low",
                  some "Plug in or suspend soon."⟩
              else report
          | none => report
      | none => report
    let report :=
      if ((cfg.getExtra "detailed").map (fun s => s == "true")).getD false then
        let report :=
          match e.energyNowAttr with
          | some energy =>
              match energy.trim.toNat? with
              | some u => report.add_metric
                  ⟨name ++ " energy_now", .integer u, some "µWh", none⟩
              | none => report
          | none => report
        match e.powerNowAttr with
        | some power =>
            match power.trim.toNat? with
            | some u => report.add_metric
                ⟨name ++ " power_now", .integer u, some "µW", none⟩
            | none => report
        | none => report
      else report
    (report, true)
  else acc

/-- `BattModule::run`. -/
def battRun (w : World) (cfg : ModuleConfig) : Except String DiagnosticReport :=
  let report := DiagnosticReport.new "batt" "Battery diagnostics" w.now
  if ¬ w.powerSupplyExists then
    .ok (report.add_finding ⟨.info, "batt",
      "No power_supply class found (desktop or no battery).", none⟩)
  else
    let entries := w.powerSupplyEntries.getD []
    let rb := entries.foldl (battEntryStep cfg) (report, false)
    let report := rb.1
    let report :=
      if ¬ rb.2 then
        report.add_finding ⟨.info, "batt",
          "No battery device found in /sys/class/power_supply.",
          some "This is normal on desktops or when battery is not exposed."⟩
      else if report.findings.isEmpty then
        { report with summary := "Battery status OK." }
      else report
    let report := report.add_recommendation
      ⟨3, "Use 'upower -i' or 'tlp-stat' for detailed power info.",
       some "upower -i /org/freedesktop/UPower/devices/battery_BAT0",
       "Upower provides charge cycles and time to empty."⟩
    .ok report.compute_overall_severity

/-- The number of `compute_overall_severity` calls on the path that
`BattModule::run` takes in world `w`: the single call site sits at the end
of the normal path (`src/modules/batt.rs:124`); the early return taken when
`/sys/class/power_supply` is absent (`src/modules/batt.rs:42`) reaches no
call site. -/
def battRunComputeCalls (w : World) : Nat :=
  if ¬ w.powerSupplyExists then 0 else 1

/-! ## The mem module (`src/modules/mem.rs`) -/

/-- The map-building loop of `read_meminfo` over the file's lines. -/
def read_meminfo (content : String) : List (String × Nat) :=
  (rustLines content).foldl
    (fun m line =>
      match parse_key_value_nat line with
      | some (k, v) => insertKV m k v
      | none => m) []

/-- `MemModule::run`. -/
def memRun (w : World) (cfg : ModuleConfig) : Except String DiagnosticReport :=
  let report := DiagnosticReport.new "mem" "Memory analysis" w.now
  match w.meminfoRead with
  | .error e =>
      .ok (report.add_finding ⟨.critical, "mem", "Cannot read /proc/meminfo", some e⟩)
  | .ok content =>
      let meminfo := read_meminfo content
      let mem_total_kb := (getKV meminfo "MemTotal").getD 0
      let mem_avail_kb := (getKV meminfo "MemAvailable").getD 0
      let swap_total_kb := (getKV meminfo "SwapTotal").getD 0
      let swap_free_kb := (getKV meminfo "SwapFree").getD 0
      let mem_used_kb := saturating_sub mem_total_kb mem_avail_kb
      let mem_used_bytes := mem_used_kb * 1024
      let mem_total_bytes := mem_total_kb * 1024
      let usage_pct : Rat :=
        if mem_total_kb > 0 then ((mem_used_kb : Rat) / (mem_total_kb : Rat)) * 100
        else 0
      let report := report.add_metric
        ⟨"Memory total", .text (format_bytes w mem_total_bytes), none, none⟩
      let report := report.add_metric
        ⟨"Memory used", .text (format_bytes w mem_used_bytes), none, none⟩
      let report := report.add_metric
        ⟨"Memory usage", .float usage_pct, some "%", some ⟨80, 95⟩⟩
      let report :=
        if ((cfg.getExtra "swap").map (fun s => s == "true")).getD true then
          let swap_used_kb := saturating_sub swap_total_kb swap_free_kb
          if swap_total_kb > 0 then
            let swap_pct : Rat := ((swap_used_kb : Rat) / (swap_total_kb : Rat)) * 100
            let report := report.add_metric
              ⟨"Swap used", .text (format_bytes w (swap_used_kb * 1024)), none, none⟩
            if swap_pct > 50 then
              report.add_finding ⟨.warning, "swap",
                "High swap usage (" ++ w.fmtFloat 0 swap_pct ++
                  "%); system may be under memory pressure.",
                some "Consider adding RAM or reducing memory-hungry processes."⟩
            else report
          else report
        else report
      let report :=
        if usage_pct > 90 then
          report.add_finding ⟨.warning, "mem",
            "Memory usage is very high; OOM risk if load increases.",
            some ("Used " ++ format_bytes w mem_used_bytes ++ " of " ++
              format_bytes w mem_total_bytes)⟩
        else report
      let procs := w.processes.mergeSort (fun a b => b.memory ≤ a.memory)
      let report := (procs.take cfg.top_n).foldl
        (fun report p =>
          if p.memory < 50 * 1024 * 1024 then report
          else report.add_finding ⟨.info, "process",
            p.name ++ " (PID " ++ toString p.pid ++ ") uses " ++
              format_bytes w p.memory,
            some "RSS (resident set size)"⟩) report
      let report :=
        if usage_pct > 85 then
          report.add_recommendation
            ⟨1, "Identify and reduce memory-heavy processes or add RAM.",
             some "ps aux --sort=-%mem | head -15",
             "High memory usage can cause swapping and slowdowns."⟩
        else report
      .ok report.compute_overall_severity

/-! ## The io module (`src/modules/io.rs`) -/

/-- The parsing loop of `read_diskstats` over the file's lines. -/
def read_diskstats (content : String) : List (String × Nat × Nat) :=
  (rustLines content).foldl
    (fun out line =>
      let parts := splitWs line
      if parts.length < 14 then out
      else
        let name := parts.getD 2 ""
        let read_sectors := ((parts.getD 5 "").toNat?).getD 0
        let write_sectors := ((parts.getD 9 "").toNat?).getD 0
        out ++ [(name, read_sectors * 512, write_sectors * 512)]) []

/-- The line loop of `read_process_io`; a missing token or failed parse on
a matching line aborts the whole function with `None` (the `?` operator). -/
def read_process_io_lines : List String → Nat → Nat → Option (Nat × Nat)
  | [], r, w => some (r, w)
  | line :: rest, r, w =>
      if line.startsWith "read_bytes:" then
        match (splitWs line)[1]? with
        | none => none
        | some t =>
            match t.toNat? with
            | none => none
            | some v => read_process_io_lines rest v w
      else if line.startsWith "write_bytes:" then
        match (splitWs line)[1]? with
        | none => none
        | some t =>
            match t.toNat? with
            | none => none
            | some v => read_process_io_lines rest r v
      else read_process_io_lines rest r w

/-- `read_process_io(pid)` given the observed content of `/proc/pid/io`. -/
def read_process_io (content : Option String) : Option (Nat × Nat) :=
  match content with
  | none => none
  | some c => read_process_io_lines (rustLines c) 0 0

/-- One iteration of the per-device loop of `IoModule::run`. -/
def ioDeviceStep (w : World) (device_filter : Option String)
    (report : DiagnosticReport) (d : String × Nat × Nat) : DiagnosticReport :=
  let name := d.1
  let read_bytes := d.2.1
  let write_bytes := d.2.2
  if name.startsWith "ram" || name.startsWith "loop" then report
  else if (match device_filter with
           | some dev => ! containsSub name dev
           | none => false) then report
  else
    let total := read_bytes + write_bytes
    if total > 0 then
      let report := report.add_metric
        ⟨name ++ " read", .text (format_bytes w read_bytes), none, none⟩
      report.add_metric
        ⟨name ++ " write", .text (format_bytes w write_bytes), none, none⟩
    else report

/-- The `/proc` scan of `IoModule::run` collecting
`(pid, comm, read_bytes, write_bytes)` for processes above 10 MiB of
cumulative I/O. -/
def ioCollectProcesses (w : World) : List (Nat × String × Nat × Nat) :=
  match w.procDirNames with
  | none => []
  | some names =>
      names.foldl
        (fun acc nm =>
          match nm.toNat? with
          | none => acc
          | some pid =>
              match read_process_io (w.procIoRead pid) with
              | none => acc
              | some rw =>
                  if rw.1 + rw.2 > 10 * 1024 * 1024 then
                    let comm := (w.procCommRead pid).getD ("pid " ++ toString pid)
                    let comm := comm.trimRight
                    acc ++ [(pid, comm, rw.1, rw.2)]
                  else acc) []

/-- `IoModule::run`. -/
def ioRun (w : World) (cfg : ModuleConfig) : Except String DiagnosticReport :=
  let report := DiagnosticReport.new "io" "Disk I/O analysis" w.now
  let device_filter := cfg.getExtra "device"
  let report :=
    match w.diskstatsRead with
    | some content => (read_diskstats content).foldl (ioDeviceStep w device_filter) report
    | none => report
  let process_io := ioCollectProcesses w
  let process_io := process_io.mergeSort (fun a b => b.2.2.1 + b.2.2.2 ≤ a.2.2.1 + a.2.2.2)
  let report := (process_io.take cfg.top_n).foldl
    (fun report p =>
      report.add_finding ⟨.info, "process",
        p.2.1 ++ " (PID " ++ toString p.1 ++ ") – read " ++
          format_bytes w p.2.2.1 ++ ", write " ++ format_bytes w p.2.2.2,
        some "Cumulative I/O since process start."⟩) report
  let report :=
    if report.findings.isEmpty && report.metrics.isEmpty then
      { report with summary := "No significant disk I/O detected." }
    else
      report.add_recommendation
        ⟨2, "Use iotop or 'pidstat -d' for live I/O monitoring.",
         some "iotop -o -b -n 3", "Identify processes causing I/O spikes."⟩
  .ok report.compute_overall_severity

/-! ## The boot module (`src/modules/boot.rs`) -/

/-- The entry-collecting loop over `systemd-analyze blame` lines: keep
`(ms / 1000, name)` for captured lines with `ms >= 1000`. -/
def bootBlameEntries (w : World) (out : String) : List (Rat × String) :=
  (rustLines out).foldl
    (fun es line =>
      match w.reBlameCap line with
      | some cap => if cap.1 ≥ 1000 then es ++ [(cap.1 / 1000, cap.2)] else es
      | none => es) []

/-- `BootModule::run`. -/
def bootRun (w : World) (cfg : ModuleConfig) : Except String DiagnosticReport :=
  let report := DiagnosticReport.new "boot" "Boot analysis (systemd)" w.now
  if ¬ w.commandExists "systemd-analyze" then
    .ok (report.add_finding ⟨.warning, "boot",
      "systemd-analyze not found; boot analysis requires systemd.",
      some "Install systemd or run on a systemd-based distribution."⟩)
  else
    let report :=
      match w.runCmd ["systemd-analyze", "time"] with
      | some out =>
          let total := ((rustLines out).find?
            (fun l => containsSub l "= " && containsSub l "s")).bind w.reBootTimeCap
          match total with
          | some secs =>
              let report := report.add_metric
                ⟨"Total boot time", .float secs, some "s", some ⟨15, 30⟩⟩
              if secs > 30 then
                report.add_finding ⟨.warning, "boot",
                  "Boot took " ++ w.fmtFloat 1 secs ++
                    "s; consider disabling unnecessary services.",
                  some "Run 'systemd-analyze blame' to see slow units."⟩
              else report
          | none => report
      | none => report
    let report :=
      match w.runCmd ["systemd-analyze", "blame", "--no-pager"] with
      | some out =>
          let entries := bootBlameEntries w out
          let entries := entries.mergeSort (fun a b => b.1 ≤ a.1)
          (entries.take cfg.top_n).foldl
            (fun (report : DiagnosticReport) (e : Rat × String) =>
              report.add_finding
                ⟨if e.1 > 5 then .warning else .info, "service",
                 e.2 ++ " took " ++ w.fmtFloat 2 e.1 ++ "s to start",
                 some ("Consider masking or disabling if not needed: systemctl disable "
                   ++ e.2 ++ ".service")⟩) report
      | none => report
    let report :=
      if report.findings.isEmpty && report.metrics.isEmpty then
        { report with summary := "Boot time within normal range; no slow services reported." }
      else if report.overall_severity = .ok then
        report.add_recommendation
          ⟨2, "Review slow services with 'systemd-analyze blame' and disable unneeded ones.",
           some "systemctl list-unit-files --state=enabled",
           "Reducing enabled services can speed up boot."⟩
      else report
    .ok report.compute_overall_severity

/-! ## The cpu module (`src/modules/cpu.rs`)

The two snapshot refreshes and the 200 ms sleep are part of producing the
`sysinfo` observation recorded in the world.  With no cpus the Rust
`total_cpu` is `NaN`, which fails every `>` comparison, exactly as the
`Rat` division-by-zero convention `0 / 0 = 0` does here. -/

/-- `CpuModule::run`. -/
def cpuRun (w : World) (cfg : ModuleConfig) : Except String DiagnosticReport :=
  let total_cpu : Rat := (w.cpus.foldl (fun a c => a + c) 0) / (w.cpus.length : Rat)
  let num_cpus := w.cpus.length
  let report := DiagnosticReport.new "cpu"
    (if total_cpu > 80 then "High CPU utilization detected"
     else if total_cpu > 50 then "Moderate CPU usage"
     else "CPU usage within normal range") w.now
  let report := report.add_metric
    ⟨"Load Average",
     .text (w.fmtFloat 2 w.loadOne ++ " / " ++ w.fmtFloat 2 w.loadFive ++ " / " ++
       w.fmtFloat 2 w.loadFifteen ++ " (1m / 5m / 15m)"), none, none⟩
  let report := report.add_metric ⟨"CPU Usage", .float total_cpu, some "%", some ⟨70, 90⟩⟩
  let report := report.add_metric ⟨"CPU Cores", .integer num_cpus, none, none⟩
  let top_processes := (w.processes.mergeSort (fun a b => b.cpuUsage ≤ a.cpuUsage)).take cfg.top_n
  let report := top_processes.foldl
    (fun report p =>
      if p.cpuUsage < (1 : Rat) / 2 then report
      else
        let mem_kb := p.memory / 1024
        let uid := p.userId.getD "?"
        report.add_finding
          ⟨if p.cpuUsage > 50 then .warning else .info, "process",
           p.name ++ " (PID " ++ toString p.pid ++ ") consuming " ++
             w.fmtFloat 1 p.cpuUsage ++ "% CPU",
           some ("Memory: " ++ toString mem_kb ++ " KB, User: " ++ uid)⟩) report
  let report :=
    if total_cpu > 80 then
      report.add_recommendation
        ⟨1, "Identify and reduce load from top processes (close tabs, stop heavy tasks).",
         some "ps aux --sort=-%cpu | head -n 15",
         "High CPU often comes from browsers, IDEs, or background indexing."⟩
    else report
  .ok report.compute_overall_severity

/-! ## The disk module (`src/modules/disk.rs`) -/

/-- `utils::parse::parse_size_human`. -/
def parse_size_human (s : String) : Option Nat :=
  let s := s.trim
  let cs := s.toList
  let endsAlpha :=
    match cs.getLast? with
    | some c => c.isAlpha
    | none => false
  let numSuffix : String × String :=
    if endsAlpha then
      let i :=
        match cs.reverse.findIdx? Char.isDigit with
        | some j => cs.length - j
        | none => 0
      (String.mk (cs.take i), String.mk (cs.drop i))
    else (s, "")
  match numSuffix.1.toNat? with
  | none => none
  | some n =>
      let su := numSuffix.2.toUpper
      if su = "" then some (n * 1)
      else if su = "K" ∨ su = "KB" then some (n * 1000)
      else if su = "KI" ∨ su = "KIB" then some (n * 1024)
      else if su = "M" ∨ su = "MB" then some (n * 1000000)
      else if su = "MI" ∨ su = "MIB" then some (n * 1024 * 1024)
      else if su = "G" ∨ su = "GB" then some (n * 1000000000)
      else if su = "GI" ∨ su = "GIB" then some (n * 1024 * 1024 * 1024)
      else if su = "T" ∨ su = "TB" then some (n * 1000000000000)
      else if su = "TI" ∨ su = "TIB" then some (n * 1024 * 1024 * 1024 * 1024)
      else none

/-- `HashMap` entry-or-insert with addition
(`*dir_sizes.entry(key).or_insert(0) += size`); iteration order of the
Rust map is unspecified, insertion order is the refinement chosen here. -/
def insertAddKV (m : List (String × Nat)) (k : String) (v : Nat) :
    List (String × Nat) :=
  if m.any (fun p => p.1 == k) then
    m.map (fun p => if p.1 == k then (p.1, p.2 + v) else p)
  else m ++ [(k, v)]

/-- `walkdir` traversal: depth-first preorder, entries limited to
`max_depth`, `filter_entry` pruning a rejected entry together with its
subtree, `Err` entries yielded without a subtree. -/
def walkEntries (pred : FsNode → Bool) : Nat → FsNode → List FsNode
  | d, FsNode.node okE nm p par mOk isF sz children =>
      let self := FsNode.node okE nm p par mOk isF sz children
      if ¬ okE then [self]
      else if ¬ pred self then []
      else
        self ::
          (if d = 0 then []
           else (children.attach.map (fun c => walkEntries pred (d - 1) c.1)).flatten)
decreasing_by
  have hmem := c.2
  have := List.sizeOf_lt_of_mem hmem
  simp only [FsNode.node.sizeOf_spec]
  omega

/-- The accumulator of the entry loop of `DiskModule::run`. -/
structure DiskAcc where
  dir_sizes : List (String × Nat)
  large_files : List (String × Nat)
  total_size : Nat

/-- One iteration of the entry loop of `DiskModule::run`. -/
def diskEntryStep (larger_than_bytes : Option Nat) (depth : Nat)
    (acc : DiskAcc) (n : FsNode) : DiskAcc :=
  if ¬ n.okEntry then acc
  else if ¬ n.metaOk then acc
  else if n.isFile then
    let size := n.size
    let acc := { acc with total_size := acc.total_size + size }
    let acc :=
      match larger_than_bytes with
      | some min_size =>
          if size ≥ min_size then
            { acc with large_files := acc.large_files ++ [(n.path, size)] }
          else acc
      | none => acc
    if depth ≥ 1 then
      match n.parent with
      | some parent => { acc with dir_sizes := insertAddKV acc.dir_sizes parent size }
      | none => acc
    else acc
  else acc

/-- `DiskModule::run`. -/
def diskRun (w : World) (cfg : ModuleConfig) : Except String DiagnosticReport :=
  let path_str := (cfg.getExtra "path").getD "/"
  let depth := ((cfg.getExtra "depth").bind String.toNat?).getD 3
  let larger_than_bytes := (cfg.getExtra "large").bind parse_size_human
  let include_hidden := ((cfg.getExtra "hidden").map (fun s => s == "true")).getD false
  let report := DiagnosticReport.new "disk" "Disk space analysis" w.now
  match w.diskTree path_str with
  | none =>
      .ok (report.add_finding ⟨.critical, "disk",
        "Path does not exist: " ++ path_str, none⟩)
  | some tree =>
      let entries := walkEntries
        (fun n => include_hidden || ¬ n.fileName.startsWith ".") (min depth 5) tree
      let acc := entries.foldl (diskEntryStep larger_than_bytes depth) ⟨[], [], 0⟩
      let report := report.add_metric ⟨"Path analyzed", .text path_str, none, none⟩
      let report := report.add_metric
        ⟨"Total size (sampled)", .text (format_bytes w acc.total_size), none, none⟩
      let large_files := acc.large_files.mergeSort (fun a b => b.2 ≤ a.2)
      let report := (large_files.take cfg.top_n).foldl
        (fun (report : DiagnosticReport) (fp : String × Nat) =>
          report.add_finding ⟨.info, "file",
            fp.1 ++ " – " ++ format_bytes w fp.2,
            some "Consider moving or compressing."⟩) report
      let dir_vec := acc.dir_sizes.mergeSort (fun a b => b.2 ≤ a.2)
      let report := (dir_vec.take 10).foldl
        (fun (report : DiagnosticReport) (d : String × Nat) =>
          if d.2 > 100 * 1024 * 1024 then
            report.add_finding ⟨.info, "directory",
              d.1 ++ " uses " ++ format_bytes w d.2, none⟩
          else report) report
      let report :=
        if acc.total_size > 50 * 1024 * 1024 * 1024 then
          report.add_recommendation
            ⟨2, "Review large directories (e.g. /var/log, caches) and clean old data.",
             some "du -sh /var/log/* 2>/dev/null | sort -hr | head -10",
             "Logs and caches often consume significant space."⟩
        else report
      .ok report.compute_overall_severity

/-! ## The fan module (`src/modules/fan.rs`) -/

/-- A Rust float-to-`u64` cast (`thresh as u64`): truncation, saturating
at zero for negative values. -/
def ratToU64 (q : Rat) : Nat :=
  if q < 0 then 0 else q.floor.toNat

/-- `read_hwmon_fans`. -/
def read_hwmon_fans (w : World) : List (String × Nat) :=
  if ¬ w.hwmonExists then []
  else
    match w.hwmonEntriesRead with
    | none => []
    | some entries =>
        entries.foldl
          (fun out entry =>
            let name := entry.nameFile.getD (entry.fileName.getD "")
            (entry.subEntries.getD []).foldl
              (fun out fe =>
                let fname := fe.fileName.getD ""
                if fname.startsWith "fan" && fname.endsWith "_input" then
                  match fe.content with
                  | some s =>
                      match s.trim.toNat? with
                      | some rpm =>
                          out ++ [(name ++ " " ++ fname.replace "_input" "", rpm)]
                      | none => out
                  | none => out
                else out) out) []

/-- `FanModule::run`. -/
def fanRun (w : World) (cfg : ModuleConfig) : Except String DiagnosticReport :=
  let report := DiagnosticReport.new "fan" "Fan diagnostics" w.now
  let threshold := (cfg.getExtra "threshold").bind parseDecimal
  let fans := read_hwmon_fans w
  if fans.isEmpty then
    .ok (report.add_finding ⟨.info, "fan",
      "No fan sensors found under /sys/class/hwmon.",
      some "Some laptops expose fans via ACPI or other interfaces."⟩)
  else
    let report := fans.foldl
      (fun (report : DiagnosticReport) (f : String × Nat) =>
        report.add_metric ⟨f.1, .integer f.2, some "RPM", none⟩) report
    let report :=
      match threshold with
      | some thresh =>
          fans.foldl
            (fun (report : DiagnosticReport) (f : String × Nat) =>
              if f.2 > ratToU64 thresh * 100 then
                report.add_finding ⟨.info, "fan",
                  f.1 ++ " running at " ++ toString f.2 ++ " RPM (above " ++
                    w.fmtFloatD thresh ++ "Â°C threshold)",
                  some "High fan speed usually indicates thermal load."⟩
              else report) report
      | none => report
    let report :=
      if report.findings.isEmpty && ¬ fans.isEmpty then
        { report with summary := "Fan speeds within normal range." }
      else report
    .ok report.compute_overall_severity

/-! ## The temp module (`src/modules/temp.rs`) -/

/-- `read_thermal_zones` (`millideg / 1000` is a truncating `i32`
division). -/
def read_thermal_zones (w : World) : List (String × Int) :=
  if ¬ w.thermalExists then []
  else
    (w.thermalZonesRead.getD []).foldl
      (fun out z =>
        let name := z.typeFile.getD (z.fileName.getD "")
        match z.tempFile with
        | some s =>
            match s.trim.toInt? with
            | some millideg => out ++ [(name, Int.tdiv millideg 1000)]
            | none => out
        | none => out) []

/-- `read_hwmon_temps`. -/
def read_hwmon_temps (w : World) : List (String × Int) :=
  if ¬ w.hwmonExists then []
  else
    (w.hwmonEntriesRead.getD []).foldl
      (fun out entry =>
        let base_name := entry.nameFile.getD (entry.fileName.getD "")
        (entry.subEntries.getD []).foldl
          (fun out te =>
            let fname := te.fileName.getD ""
            if fname.startsWith "temp" && fname.endsWith "_input" then
              match te.content with
              | some s =>
                  match s.trim.toInt? with
                  | some millideg =>
                      out ++ [(base_name ++ " " ++ fname.replace "_input" "",
                        Int.tdiv millideg 1000)]
                  | none => out
              | none => out
            else out) out) []

/-- `TempModule::run`. -/
def tempRun (w : World) (cfg : ModuleConfig) : Except String DiagnosticReport :=
  let report := DiagnosticReport.new "temp" "Temperature analysis" w.now
  let only_critical := ((cfg.getExtra "critical").map (fun s => s == "true")).getD false
  let all_temps := read_thermal_zones w ++ read_hwmon_temps w
  if all_temps.isEmpty then
    .ok (report.add_finding ⟨.info, "temp",
      "No temperature sensors found (/sys/class/thermal, /sys/class/hwmon).", none⟩)
  else
    let critical_thresh : Int := 90
    let warning_thresh : Int := 80
    let report := all_temps.foldl
      (fun (report : DiagnosticReport) (t : String × Int) =>
        if only_critical = true ∧ t.2 < critical_thresh then report
        else
          let report := report.add_metric
            ⟨t.1, .integer t.2, some "°C", some ⟨(80 : Rat), (90 : Rat)⟩⟩
          if t.2 ≥ critical_thresh then
            report.add_finding ⟨.critical, "temp",
              t.1 ++ " at " ++ toString t.2 ++ "°C – thermal throttling risk",
              some "Improve cooling or reduce load."⟩
          else if t.2 ≥ warning_thresh then
            report.add_finding ⟨.warning, "temp",
              t.1 ++ " at " ++ toString t.2 ++ "°C – high temperature", none⟩
          else report) report
    let report :=
      if Severity.ge report.overall_severity .warning then
        report.add_recommendation
          ⟨1, "Improve cooling: clean fans, check thermal paste, reduce load.",
           some "sensors", "Use 'sensors' (lm-sensors) for more detailed readings."⟩
      else report
    let report :=
      if report.findings.isEmpty && ¬ all_temps.isEmpty then
        { report with summary := "Temperatures within normal range." }
      else report
    .ok report.compute_overall_severity

/-! ## The mount module (`src/modules/mount.rs`) -/

/-- One iteration of the `/proc/mounts` line loop; the accumulator carries
`(report, count, ro_mounts, nfs_mounts)`. -/
def mountLineStep (mountpoint_filter : Option String) (check_nfs show_options : Bool)
    (st : DiagnosticReport × Nat × List String × List String) (line : String) :
    DiagnosticReport × Nat × List String × List String :=
  let report := st.1
  let count := st.2.1
  let ro_mounts := st.2.2.1
  let nfs_mounts := st.2.2.2
  let parts := splitWs line
  if parts.length < 4 then st
  else
    let device := parts.getD 0 ""
    let mountpoint := parts.getD 1 ""
    let fstype := parts.getD 2 ""
    let options := parts.getD 3 ""
    if (match mountpoint_filter with
        | some filter => ! containsSub mountpoint filter
        | none => false) then st
    else
      let count := count + 1
      let ro_mounts :=
        if containsSub options "ro" && ¬ device.startsWith "tmpfs" &&
            ¬ device.startsWith "cgroup" then
          ro_mounts ++ [device ++ " on " ++ mountpoint]
        else ro_mounts
      let nfs_mounts :=
        if check_nfs && (fstype == "nfs" || fstype == "nfs4") then
          nfs_mounts ++ [mountpoint ++ " " ++ options]
        else nfs_mounts
      let report :=
        if show_options && (mountpoint.startsWith "/" && mountpoint.length ≤ 50) then
          report.add_metric ⟨mountpoint, .text options, none, none⟩
        else report
      (report, count, ro_mounts, nfs_mounts)

/-- `MountModule::run`. -/
def mountRun (w : World) (cfg : ModuleConfig) : Except String DiagnosticReport :=
  let report := DiagnosticReport.new "mount" "Mount diagnostics" w.now
  let mountpoint_filter := cfg.getExtra "mountpoint"
  let check_nfs := ((cfg.getExtra "nfs").map (fun s => s == "true")).getD false
  let show_options := ((cfg.getExtra "options").map (fun s => s == "true")).getD false
  match w.mountsRead with
  | .error e =>
      .ok (report.add_finding ⟨.critical, "mount", "Cannot read /proc/mounts", some e⟩)
  | .ok mounts_content =>
      let st := (rustLines mounts_content).foldl
        (mountLineStep mountpoint_filter check_nfs show_options) (report, 0, [], [])
      let report := st.1
      let count := st.2.1
      let ro_mounts := st.2.2.1
      let nfs_mounts := st.2.2.2
      let report := report.add_metric ⟨"Mount count", .integer count, none, none⟩
      let report := (ro_mounts.take 5).foldl
        (fun (report : DiagnosticReport) m =>
          report.add_finding ⟨.info, "mount", "Read-only: " ++ m, none⟩) report
      let report := (nfs_mounts.take 5).foldl
        (fun (report : DiagnosticReport) m =>
          report.add_finding ⟨.info, "nfs", m, some "Check NFS server and network."⟩) report
      let report :=
        match w.fstabRead with
        | some fstab =>
            let fstab_entries := ((rustLines fstab).filter
              (fun (l : String) => ¬ l.trim.isEmpty && ¬ l.trim.startsWith "#")).length
            report.add_metric ⟨"fstab entries", .integer fstab_entries, none, none⟩
        | none => report
      let report :=
        if report.findings.isEmpty && ¬ show_options then
          { report with summary := "Mounts look normal." }
        else report
      let report := report.add_recommendation
        ⟨3, "Use 'findmnt' and 'mount' for full mount tree.", some "findmnt",
         "Shows hierarchy and options."⟩
      .ok report.compute_overall_severity

/-! ## The net module (`src/modules/net.rs`) -/

/-- `str::trim_end_matches(char)`: strip all trailing occurrences. -/
def trimEndMatchesChar (s : String) (c : Char) : String :=
  String.mk ((s.toList.reverse.dropWhile (fun x => x == c)).reverse)

/-- The latency-collecting loop over ping output lines. -/
def netParseLatencies (out : String) : List Rat :=
  (rustLines out).foldl
    (fun lat line =>
      if containsSub line "time=" || containsSub line "time<" then
        match findSub line "time=" with
        | some start =>
            let rest := String.mk (line.toList.drop (start + 5))
            match parseDecimal (takeBeforeCharOrAll rest ' ') with
            | some ms => lat ++ [ms]
            | none => lat
        | none => lat
      else lat) []

/-- The `/proc/net/dev` interface loop of `NetModule::run`. -/
def netIfaceStep (report : DiagnosticReport) (line : String) : DiagnosticReport :=
  let parts := splitWs line
  if parts.length ≥ 10 then
    let name := trimEndMatchesChar (parts.getD 0 "") ':'
    if name ≠ "lo" then
      let rx_bytes := ((parts.getD 1 "").toNat?).getD 0
      let tx_bytes := ((parts.getD 9 "").toNat?).getD 0
      if rx_bytes > 0 ∨ tx_bytes > 0 then
        let report := report.add_metric
          ⟨name ++ " rx", .integer rx_bytes, some "bytes", none⟩
        report.add_metric ⟨name ++ " tx", .integer tx_bytes, some "bytes", none⟩
      else report
    else report
  else report

/-- `NetModule::run`. -/
def netRun (w : World) (cfg : ModuleConfig) : Except String DiagnosticReport :=
  let host := (cfg.getExtra "host").getD "8.8.8.8"
  let report := DiagnosticReport.new "net" "Network diagnostics" w.now
  let report := report.add_metric ⟨"Target host", .text host, none, none⟩
  let report :=
    match w.pingOutput host with
    | some output =>
        let latency_ms := netParseLatencies output.1
        if ¬ latency_ms.isEmpty then
          let avg := (latency_ms.foldl (fun a x => a + x) 0) / (latency_ms.length : Rat)
          let report := report.add_metric
            ⟨"Ping latency (avg)", .float avg, some "ms", some ⟨100, 500⟩⟩
          if avg > 200 then
            report.add_finding ⟨.warning, "latency",
              "High latency to " ++ host ++ " (" ++ w.fmtFloat 0 avg ++ " ms avg)",
              some "Check WiFi, cable, or ISP."⟩
          else report
        else if ¬ output.2 then
          report.add_finding ⟨.warning, "connectivity",
            "Ping to " ++ host ++ " failed; host may be unreachable.",
            some "Check firewall, routing, and DNS."⟩
        else report
    | none =>
        report.add_finding ⟨.info, "connectivity",
          "Could not run ping (command not found or error).", none⟩
  let hostname :=
    if host.toList.all (fun c => c.isDigit || c == '.') then "google.com" else host
  let report :=
    match w.runCmd ["getent", "hosts", hostname] with
    | some out =>
        if ¬ out.trim.isEmpty then
          report.add_finding ⟨.ok, "dns",
            "DNS resolution for " ++ hostname ++ " OK",
            some ((rustLines out).headD "")⟩
        else report
    | none =>
        if (w.runCmd ["host", hostname]).isSome then
          report.add_finding ⟨.ok, "dns",
            "DNS resolution for " ++ hostname ++ " OK", none⟩
        else
          report.add_finding ⟨.info, "dns",
            "Could not verify DNS (getent/host not available or failed).", none⟩
  let report :=
    match w.procNetDevRead with
    | some content => ((rustLines content).drop 2).foldl netIfaceStep report
    | none => report
  let report :=
    if report.overall_severity = .ok then
      report.add_recommendation
        ⟨3, "For deeper diagnosis use: ip addr, ip route, nmcli, traceroute.",
         some "ip addr show", "Check interfaces and routing."⟩
    else report
  .ok report.compute_overall_severity

/-! ## The sleep module (`src/modules/sleep.rs`) -/

/-- `SleepModule::run`. -/
def sleepRun (w : World) (cfg : ModuleConfig) : Except String DiagnosticReport :=
  let report := DiagnosticReport.new "sleep" "Sleep/suspend diagnostics" w.now
  let report :=
    if (((cfg.getExtra "inhibitors").map (fun s => s == "true")).getD true) &&
        w.commandExists "systemd-inhibit" then
      match w.runCmd ["systemd-inhibit", "--list", "--no-pager"] with
      | some out =>
          let blockers := (rustLines out).filter (fun l => ¬ l.trim.isEmpty)
          if blockers.length > 1 then
            let report := report.add_metric
              ⟨"Active inhibitors", .integer blockers.length, none, none⟩
            let report := (blockers.take 5).foldl
              (fun (report : DiagnosticReport) line =>
                report.add_finding ⟨.info, "inhibit",
                  "Inhibitor: " ++ line.trim, none⟩) report
            if blockers.length > 3 then
              report.add_recommendation
                ⟨2, "Review what is blocking sleep: systemd-inhibit --list.",
                 some "systemd-inhibit --list",
                 "Apps (e.g. VLC, SSH) can prevent suspend."⟩
            else report
          else
            report.add_finding ⟨.ok, "sleep", "No sleep inhibitors active.", none⟩
      | none => report
    else report
  let report :=
    if w.wakeupExists then
      match w.wakeupRead with
      | some s =>
          let count := (s.trim.toInt?).getD 0
          report.add_metric ⟨"Wakeup count", .integer count, none, none⟩
      | none => report
    else report
  let report :=
    if report.findings.isEmpty && report.metrics.isEmpty then
      report.add_finding ⟨.info, "sleep",
        "No inhibitor or wakeup data available (systemd-inhibit or /sys/power).", none⟩
    else report
  let report := report.add_recommendation
    ⟨3, "Check journal for suspend/resume: journalctl -b -u sleep.target.",
     some "journalctl -b -u sleep.target", "Shows last sleep/resume events."⟩
  .ok report.compute_overall_severity

/-! ## The usb module (`src/modules/usb.rs`) -/

/-- `UsbModule::run`. -/
def usbRun (w : World) (cfg : ModuleConfig) : Except String DiagnosticReport :=
  let report := DiagnosticReport.new "usb" "USB diagnostics" w.now
  let device_filter := cfg.getExtra "device"
  let show_dmesg := ((cfg.getExtra "dmesg").map (fun s => s == "true")).getD false
  let report :=
    if w.commandExists "lsusb" then
      match w.runCmd ["lsusb"] with
      | some out =>
          let lines := (rustLines out).filter (fun l => ¬ l.trim.isEmpty)
          let report := report.add_metric
            ⟨"USB devices (lsusb)", .integer lines.length, none, none⟩
          (lines.take 15).foldl
            (fun (report : DiagnosticReport) line =>
              let line := line.trim
              if (match device_filter with
                  | some filter => ! containsSub line.toLower filter.toLower
                  | none => false) then report
              else report.add_finding ⟨.info, "usb", line, none⟩) report
      | none => report
    else
      if w.sysUsbExists then
        let entries := w.sysUsbEntriesRead.getD []
        let count := (entries.filter
          (fun e =>
            match e with
            | some nm =>
                match nm.toList.head? with
                | some c => c.isDigit
                | none => false
            | none => false)).length
        report.add_metric ⟨"USB devices (sysfs)", .integer count, none, none⟩
      else report
  let report :=
    if show_dmesg && w.commandExists "dmesg" then
      match w.runCmd ["dmesg", "-T"] with
      | some out =>
          let usb_lines := ((rustLines out).filter
            (fun l =>
              let lower := l.toLower
              containsSub lower "usb" &&
                (containsSub lower "error" || containsSub lower "reset" ||
                  containsSub lower "fail"))).take 10
          usb_lines.foldl
            (fun (report : DiagnosticReport) line =>
              report.add_finding ⟨.warning, "dmesg", line.trim, none⟩) report
      | none => report
    else report
  let report :=
    if report.findings.isEmpty && report.metrics.isEmpty then
      report.add_finding ⟨.info, "usb",
        "No USB devices or lsusb/sysfs data available.", none⟩
    else report
  let report := report.add_recommendation
    ⟨3, "Use 'lsusb -t' for tree view; 'dmesg | grep -i usb' for kernel messages.",
     some "lsusb -t", "Helps identify enumeration or power issues."⟩
  .ok report.compute_overall_severity

/-! ## The gpu module (`src/modules/gpu.rs`) -/

/-- GPU vendor identification. -/
inductive GpuVendor where
  | nvidia
  | amd
  | intel
  | unknown (s : String)
deriving Repr, DecidableEq

namespace GpuVendor

/-- `GpuVendor::from_vendor_id`. -/
def from_vendor_id (vendor_id : String) : GpuVendor :=
  let id := vendor_id.trim.toLower
  if containsSub id "0x10de" || containsSub id "10de" then .nvidia
  else if containsSub id "0x1002" || containsSub id "1002" then .amd
  else if containsSub id "0x8086" || containsSub id "8086" then .intel
  else .unknown vendor_id

/-- `GpuVendor::name`. -/
def vendorName : GpuVendor → String
  | .nvidia => "NVIDIA"
  | .amd => "AMD"
  | .intel => "Intel"
  | .unknown _ => "Unknown"

end GpuVendor

/-- A detected GPU device; `device` stands for the observations reachable
under the source's `device_path`. -/
structure GpuDevice where
  card_name : String
  vendor : GpuVendor
  pci_id : String
  device : DrmDevice

/-- GPU statistics collected from various sources (`Default` is all
`None`). -/
structure GpuStats where
  name : Option String := none
  utilization : Option Rat := none
  memory_used : Option Nat := none
  memory_total : Option Nat := none
  temperature : Option Int := none
  power_usage : Option Rat := none
  fan_speed : Option Int := none
  clock_speed : Option Nat := none

/-- A Rust `f64`-to-`i64` cast: truncation toward zero. -/
def ratToI64 (q : Rat) : Int := Int.tdiv q.num q.den

/-- `discover_gpus`. -/
def discover_gpus (w : World) : List GpuDevice :=
  if ¬ w.drmExists then []
  else
    (w.drmEntriesRead.getD []).foldl
      (fun devices entry =>
        let card_name := entry.fileName.getD ""
        if ¬ card_name.startsWith "card" || containsSub card_name "-" then devices
        else if ¬ entry.deviceExists then devices
        else
          let vendor_id := entry.vendorFile.getD "unknown"
          let vendor := GpuVendor.from_vendor_id vendor_id
          let pci_id := entry.canonical.getD "unknown"
          devices ++ [⟨card_name, vendor, pci_id, entry⟩]) []

/-- The subdirectory search loop of `find_hwmon_for_device`: an entry
without a file name aborts with `None` (the `?` operator); the first entry
whose name starts with `hwmon` is returned. -/
def hwmonFindLoop : List HwmonDev → Option HwmonDev
  | [] => none
  | e :: rest =>
      match e.fileName with
      | none => none
      | some nm => if nm.startsWith "hwmon" then some e else hwmonFindLoop rest

/-- `find_hwmon_for_device`. -/
def find_hwmon_for_device (d : DrmDevice) : Option HwmonDev :=
  if ¬ d.hwmonDirExists then none
  else
    match d.hwmonSubdirs with
    | none => none
    | some subs => hwmonFindLoop subs

/-- `read_sysfs_gpu_name` after the `uevent` attempt. -/
def gpu_name_rest (w : World) (d : DrmDevice) : Option String :=
  match d.deviceFile with
  | some device_id => some ("GPU Device " ++ device_id)
  | none =>
      if w.commandExists "lspci" then
        match d.canonical with
        | none => none
        | some pci_addr =>
            match w.runCmd ["lspci", "-s", pci_addr] with
            | some output =>
                match (rustLines output).head? with
                | some desc =>
                    match (desc.splitOn ":")[2]? with
                    | some nm => some nm.trim
                    | none => none
                | none => none
            | none => none
      else none

/-- `read_sysfs_gpu_name`: a matching `uevent` line returns its value after
`=` from the function; otherwise fall through to the device id and
`lspci` sources. -/
def read_sysfs_gpu_name (w : World) (d : DrmDevice) : Option String :=
  match d.uevent with
  | some uevent =>
      match (rustLines uevent).find?
        (fun l => l.startsWith "DEVNAME=" || l.startsWith "PCI_SLOT_NAME=") with
      | some line => (line.splitOn "=")[1]?
      | none => gpu_name_rest w d
  | none => gpu_name_rest w d

/-- `extract_percentage`: first `%`-suffixed word that parses. -/
def extract_percentage (line : String) : Option Rat :=
  (splitWs line).findSome?
    (fun word =>
      if word.endsWith "%" then parseDecimal (trimEndMatchesChar word '%')
      else none)

/-- `extract_number`: first word that parses as `f64`. -/
def extract_number (line : String) : Option Rat :=
  (splitWs line).findSome? (fun word => parseDecimal word)

/-- The hwmon sensor reads shared by the AMD and Intel stat collectors
(`withFan` selects the AMD `fan1_input` read). -/
def gpuHwmonStats (d : DrmDevice) (withFan : Bool) (stats : GpuStats) : GpuStats :=
  match find_hwmon_for_device d with
  | some hwmon =>
      let stats :=
        match hwmon.temp1Input with
        | some temp_str =>
            match temp_str.toInt? with
            | some millideg => { stats with temperature := some (Int.tdiv millideg 1000) }
            | none => stats
        | none => stats
      let stats :=
        match hwmon.power1Average with
        | some power_str =>
            match parseDecimal power_str with
            | some microwatts => { stats with power_usage := some (microwatts / 1000000) }
            | none => stats
        | none => stats
      if withFan then
        match hwmon.fan1Input with
        | some fan_str =>
            match fan_str.toInt? with
            | some rpm => { stats with fan_speed := some rpm }
            | none => stats
        | none => stats
      else stats
  | none => stats

/-- `get_nvidia_stats`. -/
def get_nvidia_stats (w : World) (device : GpuDevice) : Except String GpuStats :=
  let stats : GpuStats := {}
  let stats :=
    if w.commandExists "nvidia-smi" then
      let gpu_index := trimStartMatches device.card_name "card"
      let id_arg := "--id=" ++ gpu_index
      let query_arg := "--query-gpu=name,utilization.gpu,memory.used,memory.total,temperature.gpu,power.draw,fan.speed,clocks.gr"
      match w.runCmd ["nvidia-smi", id_arg, query_arg, "--format=csv,noheader,nounits"] with
      | some output =>
          let parts := (output.trim.splitOn ",").map String.trim
          let stats :=
            if ¬ parts.isEmpty && parts.getD 0 "" ≠ "[N/A]" then
              { stats with name := some (parts.getD 0 "") }
            else stats
          let stats :=
            if parts.length > 1 then { stats with utilization := parseDecimal (parts.getD 1 "") }
            else stats
          let stats :=
            if parts.length > 2 then { stats with memory_used := (parts.getD 2 "").toNat? }
            else stats
          let stats :=
            if parts.length > 3 then { stats with memory_total := (parts.getD 3 "").toNat? }
            else stats
          let stats :=
            if parts.length > 4 then { stats with temperature := (parts.getD 4 "").toInt? }
            else stats
          let stats :=
            if parts.length > 5 then { stats with power_usage := parseDecimal (parts.getD 5 "") }
            else stats
          let stats :=
            if parts.length > 6 then { stats with fan_speed := (parts.getD 6 "").toInt? }
            else stats
          let stats :=
            if parts.length > 7 then { stats with clock_speed := (parts.getD 7 "").toNat? }
            else stats
          stats
      | none => stats
    else stats
  let stats :=
    if stats.name.isNone then { stats with name := read_sysfs_gpu_name w device.device }
    else stats
  .ok stats

/-- `get_amd_stats`. -/
def get_amd_stats (w : World) (device : GpuDevice) : Except String GpuStats :=
  let stats : GpuStats := {}
  let stats :=
    if w.commandExists "rocm-smi" then
      match w.runCmd ["rocm-smi", "--showuse", "--showmeminfo", "vram", "--showtemp"] with
      | some output =>
          (rustLines output).foldl
            (fun (stats : GpuStats) line =>
              if containsSub line "GPU use (%)" then
                match extract_percentage line with
                | some val => { stats with utilization := some val }
                | none => stats
              else if containsSub line "Temperature" then
                match extract_number line with
                | some val => { stats with temperature := some (ratToI64 val) }
                | none => stats
              else if containsSub line "VRAM Total" then
                match extract_number line with
                | some val => { stats with memory_total := some (ratToU64 val) }
                | none => stats
              else if containsSub line "VRAM Used" then
                match extract_number line with
                | some val => { stats with memory_used := some (ratToU64 val) }
                | none => stats
              else stats) stats
      | none => stats
    else stats
  let stats :=
    if stats.utilization.isNone && w.commandExists "radeontop" then
      match w.runCmd ["radeontop", "-d", "1", "-l", "1"] with
      | some output =>
          (rustLines output).foldl
            (fun (stats : GpuStats) line =>
              if containsSub line "gpu" then
                match extract_percentage line with
                | some val => { stats with utilization := some val }
                | none => stats
              else stats) stats
      | none => stats
    else stats
  let stats := gpuHwmonStats device.device true stats
  let stats :=
    if stats.memory_total.isNone then
      match device.device.memInfoVramTotal with
      | some mem_str =>
          match mem_str.toNat? with
          | some bytes => { stats with memory_total := some (bytes / (1024 * 1024)) }
          | none => stats
      | none => stats
    else stats
  let stats :=
    if stats.memory_used.isNone then
      match device.device.memInfoVramUsed with
      | some mem_str =>
          match mem_str.toNat? with
          | some bytes => { stats with memory_used := some (bytes / (1024 * 1024)) }
          | none => stats
      | none => stats
    else stats
  let stats := { stats with name := read_sysfs_gpu_name w device.device }
  .ok stats

/-- `get_intel_stats`. -/
def get_intel_stats (w : World) (device : GpuDevice) : Except String GpuStats :=
  let stats : GpuStats := {}
  let stats :=
    if w.commandExists "intel_gpu_top" then
      match w.runCmd ["timeout", "2", "intel_gpu_top", "-J", "-s", "1000"] with
      | some output =>
          match w.intelGpuJson output with
          | some bj =>
              let stats :=
                match bj.1 with
                | some busy => { stats with utilization := some busy }
                | none => stats
              match bj.2 with
              | some actual => { stats with clock_speed := some actual }
              | none => stats
          | none => stats
      | none => stats
    else stats
  let stats := gpuHwmonStats device.device false stats
  let stats := { stats with name := read_sysfs_gpu_name w device.device }
  .ok stats

/-- The per-GPU body of the `for (idx, device)` loop of `GpuModule::run`. -/
def gpuDeviceStep (w : World) (cfg : ModuleConfig) (report : DiagnosticReport)
    (iv : Nat × GpuDevice) : DiagnosticReport :=
  let idx := iv.1
  let device := iv.2
  match device.vendor with
  | .unknown _ =>
      report.add_finding ⟨.info, "detection",
        "Unknown GPU vendor for " ++ device.card_name,
        some ("PCI ID: " ++ device.pci_id)⟩
  | v =>
      let statsE :=
        match v with
        | .nvidia => get_nvidia_stats w device
        | .amd => get_amd_stats w device
        | .intel => get_intel_stats w device
        | .unknown _ => .ok {}
      match statsE with
      | .error e =>
          report.add_finding ⟨.warning, "stats",
            "Failed to get stats for " ++ device.vendor.vendorName ++ " GPU " ++ toString idx,
            some ("Error: " ++ e)⟩
      | .ok stats =>
          let gpu_label := device.vendor.vendorName ++ " GPU " ++ toString idx
          let report :=
            match stats.name with
            | some nm => report.add_metric ⟨gpu_label ++ " - Name", .text nm, none, none⟩
            | none => report
          let report :=
            match stats.utilization with
            | some util =>
                let report := report.add_metric
                  ⟨gpu_label ++ " - Utilization", .float util, some "%", some ⟨80, 95⟩⟩
                if util > 90 then
                  report.add_finding ⟨.warning, "utilization",
                    gpu_label ++ " is under high load (" ++ w.fmtFloat 1 util ++ "%)",
                    some "GPU is near maximum utilization. This may cause performance bottlenecks."⟩
                else if util < 5 ∧ cfg.verbose then
                  report.add_finding ⟨.info, "utilization",
                    gpu_label ++ " is idle (" ++ w.fmtFloat 1 util ++ "%)", none⟩
                else report
            | none => report
          let report :=
            match stats.memory_used, stats.memory_total with
            | some used, some total =>
                let percent : Rat := ((used : Rat) / (total : Rat)) * 100
                let report := report.add_metric
                  ⟨gpu_label ++ " - Memory Used",
                   .text (toString used ++ " MiB / " ++ toString total ++ " MiB (" ++
                     w.fmtFloat 1 percent ++ "%)"), none, none⟩
                if percent > 90 then
                  report.add_finding ⟨.warning, "memory",
                    gpu_label ++ " memory is nearly full (" ++ w.fmtFloat 1 percent ++ "%)",
                    some (toString used ++ " MiB of " ++ toString total ++ " MiB used")⟩
                else report
            | _, _ => report
          let report :=
            match stats.temperature with
            | some temp =>
                let report := report.add_metric
                  ⟨gpu_label ++ " - Temperature", .integer temp, some "°C", some ⟨75, 85⟩⟩
                if temp ≥ 85 then
                  report.add_finding ⟨.critical, "temperature",
                    gpu_label ++ " is running very hot (" ++ toString temp ++ "°C)",
                    some "GPU may throttle performance or shut down. Check cooling and airflow."⟩
                else if temp ≥ 75 then
                  report.add_finding ⟨.warning, "temperature",
                    gpu_label ++ " temperature is elevated (" ++ toString temp ++ "°C)",
                    some "Consider improving case airflow or cleaning dust filters."⟩
                else report
            | none => report
          let report :=
            match stats.power_usage with
            | some power => report.add_metric ⟨gpu_label ++ " - Power Draw", .float power, some "W", none⟩
            | none => report
          let report :=
            match stats.fan_speed with
            | some fan => report.add_metric ⟨gpu_label ++ " - Fan Speed", .integer fan, some "RPM", none⟩
            | none => report
          match stats.clock_speed with
          | some clock => report.add_metric ⟨gpu_label ++ " - Clock Speed", .integer clock, some "MHz", none⟩
          | none => report

/-- `GpuModule::run`. -/
def gpuRun (w : World) (cfg : ModuleConfig) : Except String DiagnosticReport :=
  let report := DiagnosticReport.new "gpu" "GPU diagnostics" w.now
  let devices := discover_gpus w
  if devices.isEmpty then
    .ok (report.add_finding ⟨.info, "detection", "No GPU devices detected",
      some "No devices found in /sys/class/drm. This system may not have a dedicated GPU."⟩)
  else
    let report := report.add_metric
      ⟨"GPU Devices Detected", .integer devices.length, none, none⟩
    let report := devices.enum.foldl (gpuDeviceStep w cfg) report
    let report :=
      if report.findings.any (fun f => Severity.ge f.severity .warning) then
        let report :=
          if report.findings.any (fun f => f.category == "utilization") then
            report.add_recommendation
              ⟨2, "Identify GPU-intensive processes",
               (match devices.head?.map (fun d => d.vendor) with
                | some GpuVendor.nvidia => some "nvidia-smi pmon -c 1"
                | some GpuVendor.amd => some "radeontop -d 1 -l 1"
                | some GpuVendor.intel => some "intel_gpu_top -s 1000"
                | _ => none),
               "Monitor which processes are using the GPU."⟩
          else report
        let report :=
          if report.findings.any (fun f => f.category == "temperature") then
            report.add_recommendation
              ⟨1, "Improve GPU cooling immediately", none,
               "High GPU temperatures can cause throttling or hardware damage. Check fans, clean dust, improve airflow."⟩
          else report
        if report.findings.any (fun f => f.category == "memory") then
          report.add_recommendation
            ⟨2, "Reduce GPU memory usage", none,
             "Close GPU-intensive applications, reduce graphics settings, or upgrade GPU if consistently maxed out."⟩
        else report
      else if ¬ devices.isEmpty then
        let vendor := (devices.head?.map (fun d => d.vendor)).getD (.unknown "")
        let toolCmd : String × String :=
          match vendor with
          | .nvidia => ("nvidia-smi", "watch -n 1 nvidia-smi")
          | .amd => ("radeontop", "radeontop")
          | .intel => ("intel_gpu_top", "intel_gpu_top")
          | .unknown _ => ("lspci", "watch -n 1 lspci -v")
        if w.commandExists toolCmd.1 ∨ vendor = GpuVendor.unknown "" then
          report.add_recommendation
            ⟨3, "Monitor " ++ vendor.vendorName ++ " GPU in real-time", some toolCmd.2,
             "Use vendor-specific tools for detailed live monitoring."⟩
        else
          report.add_recommendation
            ⟨3, "Install " ++ vendor.vendorName ++ " GPU monitoring tools",
             (match vendor with
              | .nvidia => some "# Install: apt-get install nvidia-utils"
              | .amd => some "# Install: apt-get install radeontop"
              | .intel => some "# Install: apt-get install intel-gpu-tools"
              | _ => none),
             "Vendor tools provide the most detailed GPU metrics."⟩
      else report
    let report :=
      { report with summary :=
          if devices.isEmpty then "No GPU devices found"
          else if report.findings.any (fun f => Severity.ge f.severity .warning) then
            toString devices.length ++ " GPU(s) detected with issues"
          else
            toString devices.length ++ " GPU(s) detected and operating normally" }
    .ok report.compute_overall_severity

/-! ## Module registry (`src/modules/mod.rs`)

Each `<name>::module()` constructor yields the corresponding
`ModuleImpl`; `name`, `description` and availability are taken from the
trait implementations in the respective files. -/

def battModule : ModuleImpl :=
  { name := "batt"
    description := "Explain battery drain and power-hungry processes"
    run := battRun }

def bootModule : ModuleImpl :=
  { name := "boot"
    description := "Analyze boot performance and slow services via systemd"
    run := bootRun
    is_available := fun w => w.commandExists "systemd-analyze" }

def cpuModule : ModuleImpl :=
  { name := "cpu"
    description := "Explain high CPU usage and identify top consumers"
    run := cpuRun }

def diskModule : ModuleImpl :=
  { name := "disk"
    description := "Analyze disk space usage and find large or old files"
    run := diskRun }

def fanModule : ModuleImpl :=
  { name := "fan"
    description := "Explain fan activity and correlate with temperature/load"
    run := fanRun }

def gpuModule : ModuleImpl :=
  { name := "gpu"
    description := "Analyze GPU utilization and memory across all vendors (NVIDIA/AMD/Intel)"
    run := gpuRun
    is_available := fun w => w.drmExists }

def ioModule : ModuleImpl :=
  { name := "io"
    description := "Explain high disk I/O and identify top readers/writers"
    run := ioRun }

def memModule : ModuleImpl :=
  { name := "mem"
    description := "Explain memory consumption and identify top consumers"
    run := memRun }

def mountModule : ModuleImpl :=
  { name := "mount"
    description := "Diagnose mount point issues and filesystem checks"
    run := mountRun }

def netModule : ModuleImpl :=
  { name := "net"
    description := "Diagnose network issues: connectivity, DNS, interfaces"
    run := netRun }

def sleepModule : ModuleImpl :=
  { name := "sleep"
    description := "Diagnose sleep/suspend issues and inhibitors"
    run := sleepRun }

def tempModule : ModuleImpl :=
  { name := "temp"
    description := "Analyze temperatures and thermal throttling"
    run := tempRun }

def usbModule : ModuleImpl :=
  { name := "usb"
    description := "Diagnose USB device problems and enumeration"
    run := usbRun }

/-- `modules::get_module`. -/
def get_module (name : String) : Option ModuleImpl :=
  match name with
  | "boot" => some bootModule
  | "cpu" => some cpuModule
  | "mem" => some memModule
  | "disk" => some diskModule
  | "io" => some ioModule
  | "net" => some netModule
  | "fan" => some fanModule
  | "temp" => some tempModule
  | "gpu" => some gpuModule
  | "batt" => some battModule
  | "sleep" => some sleepModule
  | "usb" => some usbModule
  | "mount" => some mountModule
  | _ => none

/-- `modules::all_modules`: the fixed order of the registry. -/
def all_modules : List ModuleImpl :=
  [bootModule, cpuModule, memModule, diskModule, ioModule, netModule,
   fanModule, tempModule, gpuModule, battModule, sleepModule, usbModule,
   mountModule]

/-! ## Concrete test fixtures

A minimal world (nothing readable, no commands, trivial renderers) and
the test doubles used to exercise the runner, mirroring the spec's
scenario of a fixed sequence of modules one of which fails. -/

/-- A world on which every ambient read fails or is absent. -/
def W0 : World :=
  { now := 0
    commandExists := fun _ => false
    runCmd := fun _ => none
    formatBytesR := fun n => toString n
    fmtFloat := fun _ q => toString q
    fmtFloatD := fun q => toString q
    reBootTimeCap := fun _ => none
    reBlameCap := fun _ => none
    intelGpuJson := fun _ => none
    powerSupplyExists := false
    powerSupplyEntries := none
    meminfoRead := .error "No such file or directory (os error 2)"
    cpus := []
    loadOne := 0
    loadFive := 0
    loadFifteen := 0
    processes := []
    diskstatsRead := none
    procDirNames := none
    procIoRead := fun _ => none
    procCommRead := fun _ => none
    diskTree := fun _ => none
    hwmonExists := false
    hwmonEntriesRead := none
    thermalExists := false
    thermalZonesRead := none
    drmExists := false
    drmEntriesRead := none
    mountsRead := .error "No such file or directory (os error 2)"
    fstabRead := none
    pingOutput := fun _ => none
    procNetDevRead := none
    wakeupExists := false
    wakeupRead := none
    sysUsbExists := false
    sysUsbEntriesRead := none }

/-- A fixed report value for the runner test doubles. -/
def reportStub (nm : String) : DiagnosticReport := DiagnosticReport.new nm "stub" 0

/-- Test double A: available, succeeds. -/
def modA : ModuleImpl :=
  { name := "A", description := "", run := fun _ _ => .ok (reportStub "A") }

/-- Test double B: available, fails. -/
def modB : ModuleImpl :=
  { name := "B", description := "", run := fun _ _ => .error "boom" }

/-- Test double C: available, succeeds. -/
def modC : ModuleImpl :=
  { name := "C", description := "", run := fun _ _ => .ok (reportStub "C") }

/-- Test double U: unavailable. -/
def modU : ModuleImpl :=
  { name := "U", description := "", run := fun _ _ => .ok (reportStub "U")
    is_available := fun _ => false }

/-- One mutation step of a report-building sequence: the three append
operations a module may apply between `new` and the final recompute. -/
inductive ReportOp where
  | finding (f : Finding)
  | metric (m : Metric)
  | recommend (rc : Recommendation)

/-- Apply one `ReportOp`. -/
def applyOp (r : DiagnosticReport) : ReportOp → DiagnosticReport
  | .finding f => r.add_finding f
  | .metric m => r.add_metric m
  | .recommend rc => r.add_recommendation rc

/-- Apply a sequence of `ReportOp`s in order. -/
def applyOps (r : DiagnosticReport) : List ReportOp → DiagnosticReport
  | [] => r
  | op :: ops => applyOps (applyOp r op) ops

/-! ## Lemmas about the severity fold and the report invariant -/

theorem sevfold_append (l : List Severity) (s : Severity) (init : Severity) :
    (l ++ [s]).foldl Severity.max init = Severity.max (l.foldl Severity.max init) s := by
  simp [List.foldl_append]

theorem sevInv_new (m s : String) (now : Nat) :
    (DiagnosticReport.new m s now).SevInv := by
  simp [DiagnosticReport.SevInv, DiagnosticReport.new]

theorem sevInv_add_finding {r : DiagnosticReport} (h : r.SevInv) (f : Finding) :
    (r.add_finding f).SevInv := by
  unfold DiagnosticReport.SevInv DiagnosticReport.add_finding
  simp only [List.map_append, List.map_cons, List.map_nil]
  rw [sevfold_append, ← h]

theorem sevInv_add_metric {r : DiagnosticReport} (h : r.SevInv) (m : Metric) :
    (r.add_metric m).SevInv := by
  unfold DiagnosticReport.SevInv DiagnosticReport.add_metric at *
  exact h

theorem sevInv_add_recommendation {r : DiagnosticReport} (h : r.SevInv)
    (rec : Recommendation) : (r.add_recommendation rec).SevInv := by
  unfold DiagnosticReport.SevInv DiagnosticReport.add_recommendation at *
  exact h

theorem sevInv_set_summary {r : DiagnosticReport} (h : r.SevInv) (s : String) :
    ({ r with summary := s } : DiagnosticReport).SevInv := by
  unfold DiagnosticReport.SevInv at *
  exact h

theorem sevInv_compute (r : DiagnosticReport) :
    r.compute_overall_severity.SevInv := by
  simp [DiagnosticReport.SevInv, DiagnosticReport.compute_overall_severity]

theorem compute_of_sevInv {r : DiagnosticReport} (h : r.SevInv) :
    r.compute_overall_severity = r := by
  unfold DiagnosticReport.compute_overall_severity
  rw [← h]

theorem sevmax_critical_left (a : Severity) :
    Severity.max .critical a = .critical := by
  cases a <;> rfl

theorem sevmax_critical_right (a : Severity) :
    Severity.max a .critical = .critical := by
  cases a <;> rfl

theorem sevfold_from_critical (l : List Severity) :
    l.foldl Severity.max .critical = .critical := by
  induction l with
  | nil => rfl
  | cons a l ih => rw [List.foldl_cons, sevmax_critical_left]; exact ih

theorem sevfold_critical {l : List Severity} (h : Severity.critical ∈ l)
    (init : Severity) : l.foldl Severity.max init = .critical := by
  induction l generalizing init with
  | nil => cases h
  | cons a l ih =>
      rw [List.foldl_cons]
      rcases List.mem_cons.mp h with ha | h'
      · rw [← ha, sevmax_critical_right]
        exact sevfold_from_critical l
      · exact ih h' _

theorem add_finding_overall (r : DiagnosticReport) (fs : List Finding) :
    (fs.foldl DiagnosticReport.add_finding r).overall_severity
      = (fs.map (fun f => f.severity)).foldl Severity.max r.overall_severity := by
  induction fs generalizing r with
  | nil => rfl
  | cons f fs ih =>
      rw [List.foldl_cons, List.map_cons, List.foldl_cons, ih]
      rfl

theorem sevInv_applyOps {r : DiagnosticReport} (h : r.SevInv)
    (ops : List ReportOp) : (applyOps r ops).SevInv := by
  induction ops generalizing r with
  | nil => exact h
  | cons op ops ih =>
      cases op with
      | finding f => exact ih (sevInv_add_finding h f)
      | metric m => exact ih (sevInv_add_metric h m)
      | recommend rc => exact ih (sevInv_add_recommendation h rc)

theorem run_all_modules_eq_map (w : World) (ms : List ModuleImpl)
    (cfg : ModuleConfig) :
    run_all_modules w ms cfg = ms.map (fun m => run_module w m cfg) := by
  induction ms with
  | nil => rfl
  | cons m ms ih => simp [run_all_modules, ih]

/-! ### Per-module lemmas: every `run` returns `Ok`, and every returned
report satisfies the overall-severity invariant. -/

theorem battRun_isOk (w : World) (cfg : ModuleConfig) :
    ∃ r, battRun w cfg = .ok r := by
  unfold battRun
  cases hx : w.powerSupplyExists <;> simp only [hx] <;> exact ⟨_, rfl⟩

theorem bootRun_isOk (w : World) (cfg : ModuleConfig) :
    ∃ r, bootRun w cfg = .ok r := by
  unfold bootRun
  cases hx : w.commandExists "systemd-analyze" <;> simp only [hx] <;> exact ⟨_, rfl⟩

theorem cpuRun_isOk (w : World) (cfg : ModuleConfig) :
    ∃ r, cpuRun w cfg = .ok r := ⟨_, rfl⟩

theorem memRun_isOk (w : World) (cfg : ModuleConfig) :
    ∃ r, memRun w cfg = .ok r := by
  unfold memRun
  cases hx : w.meminfoRead <;> simp only [hx] <;> exact ⟨_, rfl⟩

theorem ioRun_isOk (w : World) (cfg : ModuleConfig) :
    ∃ r, ioRun w cfg = .ok r := ⟨_, rfl⟩

theorem diskRun_isOk (w : World) (cfg : ModuleConfig) :
    ∃ r, diskRun w cfg = .ok r := by
  unfold diskRun
  cases hx : w.diskTree ((cfg.getExtra "path").getD "/") <;> simp only [hx] <;>
    exact ⟨_, rfl⟩

theorem fanRun_isOk (w : World) (cfg : ModuleConfig) :
    ∃ r, fanRun w cfg = .ok r := by
  unfold fanRun
  cases hx : (read_hwmon_fans w).isEmpty <;> simp only [hx] <;> exact ⟨_, rfl⟩

theorem tempRun_isOk (w : World) (cfg : ModuleConfig) :
    ∃ r, tempRun w cfg = .ok r := by
  unfold tempRun
  cases hx : (read_thermal_zones w ++ read_hwmon_temps w).isEmpty <;>
    simp only [hx] <;> exact ⟨_, rfl⟩

theorem gpuRun_isOk (w : World) (cfg : ModuleConfig) :
    ∃ r, gpuRun w cfg = .ok r := by
  unfold gpuRun
  cases hx : (discover_gpus w).isEmpty <;> simp only [hx] <;> exact ⟨_, rfl⟩

theorem mountRun_isOk (w : World) (cfg : ModuleConfig) :
    ∃ r, mountRun w cfg = .ok r := by
  unfold mountRun
  cases hx : w.mountsRead <;> simp only [hx] <;> exact ⟨_, rfl⟩

theorem netRun_isOk (w : World) (cfg : ModuleConfig) :
    ∃ r, netRun w cfg = .ok r := ⟨_, rfl⟩

theorem sleepRun_isOk (w : World) (cfg : ModuleConfig) :
    ∃ r, sleepRun w cfg = .ok r := ⟨_, rfl⟩

theorem usbRun_isOk (w : World) (cfg : ModuleConfig) :
    ∃ r, usbRun w cfg = .ok r := ⟨_, rfl⟩

theorem battRun_sevInv (w : World) (cfg : ModuleConfig) {r : DiagnosticReport}
    (h : battRun w cfg = .ok r) : r.SevInv := by
  unfold battRun at h
  cases hx : w.powerSupplyExists <;> simp only [hx] at h <;>
    (injection h with h; subst h) <;>
    first
      | exact sevInv_add_finding (sevInv_new _ _ _) _
      | exact sevInv_compute _

theorem bootRun_sevInv (w : World) (cfg : ModuleConfig) {r : DiagnosticReport}
    (h : bootRun w cfg = .ok r) : r.SevInv := by
  unfold bootRun at h
  cases hx : w.commandExists "systemd-analyze" <;> simp only [hx] at h <;>
    (injection h with h; subst h) <;>
    first
      | exact sevInv_add_finding (sevInv_new _ _ _) _
      | exact sevInv_compute _

theorem cpuRun_sevInv (w : World) (cfg : ModuleConfig) {r : DiagnosticReport}
    (h : cpuRun w cfg = .ok r) : r.SevInv := by
  unfold cpuRun at h
  injection h with h
  subst h
  exact sevInv_compute _

theorem memRun_sevInv (w : World) (cfg : ModuleConfig) {r : DiagnosticReport}
    (h : memRun w cfg = .ok r) : r.SevInv := by
  unfold memRun at h
  cases hx : w.meminfoRead <;> simp only [hx] at h <;>
    (injection h with h; subst h) <;>
    first
      | exact sevInv_add_finding (sevInv_new _ _ _) _
      | exact sevInv_compute _

theorem ioRun_sevInv (w : World) (cfg : ModuleConfig) {r : DiagnosticReport}
    (h : ioRun w cfg = .ok r) : r.SevInv := by
  unfold ioRun at h
  injection h with h
  subst h
  exact sevInv_compute _

theorem diskRun_sevInv (w : World) (cfg : ModuleConfig) {r : DiagnosticReport}
    (h : diskRun w cfg = .ok r) : r.SevInv := by
  unfold diskRun at h
  cases hx : w.diskTree ((cfg.getExtra "path").getD "/") <;> simp only [hx] at h <;>
    (injection h with h; subst h) <;>
    first
      | exact sevInv_add_finding (sevInv_new _ _ _) _
      | exact sevInv_compute _

theorem fanRun_sevInv (w : World) (cfg : ModuleConfig) {r : DiagnosticReport}
    (h : fanRun w cfg = .ok r) : r.SevInv := by
  unfold fanRun at h
  cases hx : (read_hwmon_fans w).isEmpty <;> simp only [hx] at h <;>
    (injection h with h; subst h) <;>
    first
      | exact sevInv_add_finding (sevInv_new _ _ _) _
      | exact sevInv_compute _

theorem tempRun_sevInv (w : World) (cfg : ModuleConfig) {r : DiagnosticReport}
    (h : tempRun w cfg = .ok r) : r.SevInv := by
  unfold tempRun at h
  cases hx : (read_thermal_zones w ++ read_hwmon_temps w).isEmpty <;>
    simp only [hx] at h <;> (injection h with h; subst h) <;>
    first
      | exact sevInv_add_finding (sevInv_new _ _ _) _
      | exact sevInv_compute _

theorem gpuRun_sevInv (w : World) (cfg : ModuleConfig) {r : DiagnosticReport}
    (h : gpuRun w cfg = .ok r) : r.SevInv := by
  unfold gpuRun at h
  cases hx : (discover_gpus w).isEmpty <;> simp only [hx] at h <;>
    (injection h with h; subst h) <;>
    first
      | exact sevInv_add_finding (sevInv_new _ _ _) _
      | exact sevInv_compute _

theorem mountRun_sevInv (w : World) (cfg : ModuleConfig) {r : DiagnosticReport}
    (h : mountRun w cfg = .ok r) : r.SevInv := by
  unfold mountRun at h
  cases hx : w.mountsRead <;> simp only [hx] at h <;>
    (injection h with h; subst h) <;>
    first
      | exact sevInv_add_finding (sevInv_new _ _ _) _
      | exact sevInv_compute _

theorem netRun_sevInv (w : World) (cfg : ModuleConfig) {r : DiagnosticReport}
    (h : netRun w cfg = .ok r) : r.SevInv := by
  unfold netRun at h
  injection h with h
  subst h
  exact sevInv_compute _

theorem sleepRun_sevInv (w : World) (cfg : ModuleConfig) {r : DiagnosticReport}
    (h : sleepRun w cfg = .ok r) : r.SevInv := by
  unfold sleepRun at h
  injection h with h
  subst h
  exact sevInv_compute _

theorem usbRun_sevInv (w : World) (cfg : ModuleConfig) {r : DiagnosticReport}
    (h : usbRun w cfg = .ok r) : r.SevInv := by
  unfold usbRun at h
  injection h with h
  subst h
  exact sevInv_compute _

/-! ## Claim theorems -/

/-- C5: `Severity::max` is commutative, associative and idempotent over the
four values; it returns one of its operands, namely one of maximal rank
under `Ok < Info < Warning < Critical`; and the fold of `max` from `Ok`
over no findings — as `compute_overall_severity` performs it on a report
with an empty findings list — yields `Ok`. -/
theorem severity_max_lattice :
    (∀ a b : Severity, a.max b = b.max a) ∧
    (∀ a b c : Severity, (a.max b).max c = a.max (b.max c)) ∧
    (∀ a : Severity, a.max a = a) ∧
    (∀ a b : Severity, a.max b = a ∨ a.max b = b) ∧
    (∀ a b : Severity, (a.max b).rank = Nat.max a.rank b.rank) ∧
    (∀ r : DiagnosticReport, r.findings = [] →
      r.compute_overall_severity.overall_severity = .ok) := by
  refine ⟨by decide, by decide, by decide, by decide, by decide, ?_⟩
  intro r h
  simp [DiagnosticReport.compute_overall_severity, h]

/-- Witness for C5 at concrete inputs: a freshly constructed report has no
findings and recomputing on it yields `Ok`. -/
theorem severity_max_lattice_witness :
    (DiagnosticReport.new "m" "s" 0).findings = [] ∧
    (DiagnosticReport.new "m" "s" 0).compute_overall_severity.overall_severity
      = Severity.ok :=
  ⟨rfl, severity_max_lattice.2.2.2.2.2 (DiagnosticReport.new "m" "s" 0) rfl⟩

/-- C1: a report built by `DiagnosticReport::new` has empty collections
and overall severity `Ok`, and after any finite sequence of `add_finding`
calls its overall severity is the fold of `Severity::max` from `Ok` over
the appended findings' severities; in particular, once a `Critical`
finding is among them the overall severity is `Critical`. -/
theorem report_overall_is_fold (m s : String) (now : Nat) (fs : List Finding) :
    ((DiagnosticReport.new m s now).findings = [] ∧
     (DiagnosticReport.new m s now).recommendations = [] ∧
     (DiagnosticReport.new m s now).metrics = [] ∧
     (DiagnosticReport.new m s now).overall_severity = .ok) ∧
    (fs.foldl DiagnosticReport.add_finding (DiagnosticReport.new m s now)).overall_severity
      = (fs.map (fun f => f.severity)).foldl Severity.max .ok ∧
    (∀ f ∈ fs, f.severity = .critical →
      (fs.foldl DiagnosticReport.add_finding
        (DiagnosticReport.new m s now)).overall_severity = .critical) := by
  refine ⟨⟨rfl, rfl, rfl, rfl⟩, ?_, ?_⟩
  · rw [add_finding_overall]
    rfl
  · intro f hf hc
    rw [add_finding_overall]
    exact sevfold_critical (List.mem_map.mpr ⟨f, hf, hc⟩) _

/-- Witness for C1: a `Critical` finding followed by an `Info` one leaves
the overall severity `Critical`. -/
theorem report_overall_is_fold_witness :
    ([(⟨.critical, "x", "y", none⟩ : Finding), ⟨.info, "x", "y", none⟩].foldl
      DiagnosticReport.add_finding
      (DiagnosticReport.new "cpu" "s" 0)).overall_severity = .critical :=
  (report_overall_is_fold "cpu" "s" 0
    [⟨.critical, "x", "y", none⟩, ⟨.info, "x", "y", none⟩]).2.2
    ⟨.critical, "x", "y", none⟩ (by simp) rfl

/-- C7: for a report built from `new` by any sequence of the three append
operations, the from-scratch `compute_overall_severity` leaves the report
(and in particular its incrementally maintained `overall_severity`)
unchanged. -/
theorem recompute_agrees_with_incremental (m s : String) (now : Nat)
    (ops : List ReportOp) :
    (applyOps (DiagnosticReport.new m s now) ops).compute_overall_severity
      = applyOps (DiagnosticReport.new m s now) ops :=
  compute_of_sevInv (sevInv_applyOps (sevInv_new m s now) ops)

/-- C8: `add_metric` appends to `metrics` and `add_recommendation` appends
to `recommendations`, and each leaves every other field — overall
severity, findings, summary, module, timestamp, the other collection and
the raw payload — unchanged. -/
theorem append_ops_frame (r : DiagnosticReport) (m : Metric)
    (rc : Recommendation) :
    (r.add_metric m).metrics = r.metrics ++ [m] ∧
    (r.add_metric m).overall_severity = r.overall_severity ∧
    (r.add_metric m).findings = r.findings ∧
    (r.add_metric m).summary = r.summary ∧
    (r.add_metric m).module = r.module ∧
    (r.add_metric m).timestamp = r.timestamp ∧
    (r.add_metric m).recommendations = r.recommendations ∧
    (r.add_metric m).raw_data = r.raw_data ∧
    (r.add_recommendation rc).recommendations = r.recommendations ++ [rc] ∧
    (r.add_recommendation rc).overall_severity = r.overall_severity ∧
    (r.add_recommendation rc).findings = r.findings ∧
    (r.add_recommendation rc).summary = r.summary ∧
    (r.add_recommendation rc).module = r.module ∧
    (r.add_recommendation rc).timestamp = r.timestamp ∧
    (r.add_recommendation rc).metrics = r.metrics ∧
    (r.add_recommendation rc).raw_data = r.raw_data :=
  ⟨rfl, rfl, rfl, rfl, rfl, rfl, rfl, rfl,
   rfl, rfl, rfl, rfl, rfl, rfl, rfl, rfl⟩

/-- C2: `run_all_modules` produces one element per module, the i-th being
exactly `run_module` of the i-th module (so outcomes are captured
independently and in order); in the concrete scenario where the middle of
three modules fails, the result is `[Ok, Err, Ok]`. -/
theorem run_all_modules_pointwise (w : World) (modules : List ModuleImpl)
    (cfg : ModuleConfig) :
    ((run_all_modules w modules cfg).length = modules.length ∧
     ∀ i : Nat, (run_all_modules w modules cfg)[i]?
        = (modules[i]?).map (fun m => run_module w m cfg)) ∧
    run_all_modules W0 [modA, modB, modC] ModuleConfig.default
      = [.ok (reportStub "A"), .error "boom", .ok (reportStub "C")] := by
  refine ⟨⟨?_, ?_⟩, rfl⟩
  · rw [run_all_modules_eq_map]
    exact List.length_map _ _
  · intro i
    rw [run_all_modules_eq_map]
    exact List.getElem?_map _ _ _

/-- C3: when `is_available()` is false, `run_module` fails with the
unavailability message and the module's `run` is never consulted (the
result is the same for every `run` implementation); when it is true,
`run_module` is exactly one invocation of `run`, whose `Ok` report or
error is returned unchanged. -/
theorem run_module_availability_gate (w : World) (m : ModuleImpl)
    (cfg : ModuleConfig) :
    (m.is_available w = false →
      run_module w m cfg
        = .error ("Module " ++ m.name ++ " is not available on this system") ∧
      ∀ r, run_module w { m with run := r } cfg = run_module w m cfg) ∧
    (m.is_available w = true → run_module w m cfg = m.run w cfg) := by
  constructor
  · intro h
    constructor
    · simp [run_module, h]
    · intro r
      simp [run_module, h]
  · intro h
    simp [run_module, h]

/-- Witness for C3: the unavailable test double fails with the message and
the available one returns its own `run` result. -/
theorem run_module_availability_gate_witness :
    run_module W0 modU ModuleConfig.default
      = .error ("Module " ++ modU.name ++ " is not available on this system") ∧
    run_module W0 modA ModuleConfig.default = modA.run W0 ModuleConfig.default :=
  ⟨((run_module_availability_gate W0 modU ModuleConfig.default).1 rfl).1,
   (run_module_availability_gate W0 modA ModuleConfig.default).2 rfl⟩

/-- C9: `get_module` succeeds exactly on the thirteen registered names,
returning a module whose `name()` equals the key, and `all_modules`
returns the thirteen modules with pairwise distinct names in the fixed
registry order. -/
theorem registry_names_spec :
    (all_modules.map (fun m => m.name)
      = ["boot", "cpu", "mem", "disk", "io", "net", "fan", "temp", "gpu",
         "batt", "sleep", "usb", "mount"]) ∧
    (all_modules.map (fun m => m.name)).Nodup ∧
    (∀ s m, get_module s = some m → m.name = s) ∧
    (∀ s, (get_module s).isSome = true ↔
      s ∈ ["boot", "cpu", "mem", "disk", "io", "net", "fan", "temp", "gpu",
           "batt", "sleep", "usb", "mount"]) ∧
    (∀ m ∈ all_modules, get_module m.name = some m) := by
  refine ⟨rfl, by decide, ?_, ?_, ?_⟩
  · intro s m h
    unfold get_module at h
    split at h <;> simp_all <;> (subst h; rfl)
  · intro s
    unfold get_module
    split <;> simp_all
  · intro m hm
    simp only [all_modules, List.mem_cons, List.not_mem_nil, or_false] at hm
    rcases hm with rfl | rfl | rfl | rfl | rfl | rfl | rfl | rfl | rfl | rfl | rfl | rfl | rfl <;> rfl

/-- Witness for C9: a registered name is found with matching `name()`, an
unregistered one is not. -/
theorem registry_names_spec_witness :
    (∀ m, get_module "batt" = some m → m.name = "batt") ∧
    ((get_module "nope").isSome = true ↔
      "nope" ∈ ["boot", "cpu", "mem", "disk", "io", "net", "fan", "temp",
        "gpu", "batt", "sleep", "usb", "mount"]) :=
  ⟨fun m h => registry_names_spec.2.2.1 "batt" m h,
   registry_names_spec.2.2.2.1 "nope"⟩

/-- C10: no registered module's `run` ever returns an error — for every
module, configuration and world it yields `Ok` — systemic conditions such
as an unreadable `/proc/meminfo` being absorbed as a `Critical` finding
inside an `Ok` report; hence the only error `run_module` can produce is
the availability error. -/
theorem module_runs_never_error (w : World) (cfg : ModuleConfig) :
    (∀ m ∈ all_modules, ∃ r, m.run w cfg = .ok r) ∧
    (∀ m ∈ all_modules, ∀ e, run_module w m cfg = .error e →
      m.is_available w = false ∧
      e = "Module " ++ m.name ++ " is not available on this system") ∧
    (∀ e, w.meminfoRead = .error e →
      memRun w cfg
        = .ok ((DiagnosticReport.new "mem" "Memory analysis" w.now).add_finding
            ⟨.critical, "mem", "Cannot read /proc/meminfo", some e⟩)) := by
  have hok : ∀ m ∈ all_modules, ∃ r, m.run w cfg = .ok r := by
    intro m hm
    simp only [all_modules, List.mem_cons, List.not_mem_nil, or_false] at hm
    rcases hm with rfl | rfl | rfl | rfl | rfl | rfl | rfl | rfl | rfl | rfl | rfl | rfl | rfl
    · exact bootRun_isOk w cfg
    · exact cpuRun_isOk w cfg
    · exact memRun_isOk w cfg
    · exact diskRun_isOk w cfg
    · exact ioRun_isOk w cfg
    · exact netRun_isOk w cfg
    · exact fanRun_isOk w cfg
    · exact tempRun_isOk w cfg
    · exact gpuRun_isOk w cfg
    · exact battRun_isOk w cfg
    · exact sleepRun_isOk w cfg
    · exact usbRun_isOk w cfg
    · exact mountRun_isOk w cfg
  refine ⟨hok, ?_, ?_⟩
  · intro m hm e he
    cases hav : m.is_available w with
    | false =>
        refine ⟨rfl, ?_⟩
        unfold run_module at he
        simp only [hav] at he
        injection he with he
        exact he.symm
    | true =>
        exfalso
        obtain ⟨r, hr⟩ := hok m hm
        unfold run_module at he
        simp only [hav] at he
        have he2 : m.run w cfg = .error e := he
        rw [hr] at he2
        exact Except.noConfusion he2
  · intro e he
    unfold memRun
    rw [he]

/-- Witness for C10: with `/proc/meminfo` unreadable, the mem module still
returns `Ok`, with the read error absorbed as a `Critical` finding. -/
theorem module_runs_never_error_witness :
    (∃ r, memModule.run W0 ModuleConfig.default = .ok r) ∧
    memRun W0 ModuleConfig.default
      = .ok ((DiagnosticReport.new "mem" "Memory analysis" W0.now).add_finding
          ⟨.critical, "mem", "Cannot read /proc/meminfo",
           some "No such file or directory (os error 2)"⟩) :=
  ⟨(module_runs_never_error W0 ModuleConfig.default).1 memModule (by simp [all_modules]),
   (module_runs_never_error W0 ModuleConfig.default).2.2
     "No such file or directory (os error 2)" rfl⟩

/-- C6 (amended): every report returned by a registered module's `run`
satisfies the invariant `overall_severity = fold(max, Ok)` over its
findings; the normal return paths finalize it with an explicit
`compute_overall_severity`, but the batt module's early return (taken
when `/sys/class/power_supply` is absent) skips that recompute — there the
invariant holds because `add_finding` maintains it incrementally. -/
theorem module_reports_sevInv (w : World) (cfg : ModuleConfig) :
    ∀ m ∈ all_modules, ∀ r, m.run w cfg = .ok r → r.SevInv := by
  intro m hm r h
  simp only [all_modules, List.mem_cons, List.not_mem_nil, or_false] at hm
  rcases hm with rfl | rfl | rfl | rfl | rfl | rfl | rfl | rfl | rfl | rfl | rfl | rfl | rfl
  · exact bootRun_sevInv w cfg h
  · exact cpuRun_sevInv w cfg h
  · exact memRun_sevInv w cfg h
  · exact diskRun_sevInv w cfg h
  · exact ioRun_sevInv w cfg h
  · exact netRun_sevInv w cfg h
  · exact fanRun_sevInv w cfg h
  · exact tempRun_sevInv w cfg h
  · exact gpuRun_sevInv w cfg h
  · exact battRun_sevInv w cfg h
  · exact sleepRun_sevInv w cfg h
  · exact usbRun_sevInv w cfg h
  · exact mountRun_sevInv w cfg h

/-- Witness for C6: the batt module's report on the empty world satisfies
the invariant. -/
theorem module_reports_sevInv_witness :
    battModule ∈ all_modules ∧
    ∃ r, battModule.run W0 ModuleConfig.default = .ok r ∧ r.SevInv := by
  refine ⟨by simp [all_modules], ?_⟩
  refine ⟨_, rfl, ?_⟩
  exact module_reports_sevInv W0 ModuleConfig.default battModule
    (by simp [all_modules]) _ rfl

/-- Counterexample to C6 as stated: on a host without
`/sys/class/power_supply` the batt run returns its report (which has a
finding) along a path that performs zero `compute_overall_severity`
calls — the single call site sits on the normal path only — so the
"finalized by an explicit recompute on every return path, including the
batt early return" part of the claim is false of the code, even though
the returned report still satisfies the invariant. -/
theorem batt_early_return_skips_recompute :
    battRunComputeCalls W0 = 0 ∧
    ∃ r, battRun W0 ModuleConfig.default = .ok r ∧ r.findings ≠ [] ∧ r.SevInv := by
  refine ⟨rfl, _, rfl, ?_, ?_⟩
  · simp [DiagnosticReport.new, DiagnosticReport.add_finding]
  · decide

/-! ### C4: batt on hosts without a battery -/

theorem battEntryStep_skip (cfg : ModuleConfig) (acc : DiagnosticReport × Bool)
    (e : PsEntry) (he : isBatteryEntry e = false) :
    battEntryStep cfg acc e = acc := by
  simp [battEntryStep, he]

theorem battFold_nonbattery (cfg : ModuleConfig) {entries : List PsEntry}
    (h : ∀ e ∈ entries, isBatteryEntry e = false) (acc : DiagnosticReport × Bool) :
    entries.foldl (battEntryStep cfg) acc = acc := by
  induction entries generalizing acc with
  | nil => rfl
  | cons e es ih =>
      rw [List.foldl_cons, battEntryStep_skip cfg acc e (h e (List.mem_cons_self e es))]
      exact ih (fun x hx => h x (List.mem_cons_of_mem e hx)) acc

/-- C4: on a host where `/sys/class/power_supply` does not exist, or where
none of its entries has a battery type, `BattModule::run` returns
`Ok(report)` with at least one `Info` finding and an overall severity of
`Ok` or `Info`. -/
theorem batt_absent_graceful (w : World) (cfg : ModuleConfig)
    (h : w.powerSupplyExists = false ∨
      ∀ e ∈ w.powerSupplyEntries.getD [], isBatteryEntry e = false) :
    ∃ r, battRun w cfg = .ok r ∧
      (∃ f ∈ r.findings, f.severity = .info) ∧
      (r.overall_severity = .ok ∨ r.overall_severity = .info) := by
  unfold battRun
  cases hps : w.powerSupplyExists with
  | false =>
      simp only [hps]
      refine ⟨_, rfl, ?_, ?_⟩
      · exact ⟨⟨.info, "batt", "No power_supply class found (desktop or no battery).", none⟩,
          by simp [DiagnosticReport.new, DiagnosticReport.add_finding], rfl⟩
      · right
        rfl
  | true =>
      have hall : ∀ e ∈ w.powerSupplyEntries.getD [], isBatteryEntry e = false := by
        rcases h with h0 | h1
        · rw [hps] at h0
          cases h0
        · exact h1
      simp only [hps]
      rw [battFold_nonbattery cfg hall]
      refine ⟨_, rfl, ?_, ?_⟩
      · refine ⟨⟨.info, "batt", "No battery device found in /sys/class/power_supply.",
          some "This is normal on desktops or when battery is not exposed."⟩, ?_, rfl⟩
        simp [DiagnosticReport.new, DiagnosticReport.add_finding,
          DiagnosticReport.add_recommendation, DiagnosticReport.compute_overall_severity]
      · right
        simp [DiagnosticReport.new, DiagnosticReport.add_finding,
          DiagnosticReport.add_recommendation, DiagnosticReport.compute_overall_severity]
        rfl

/-- Witness for C4: the world without `/sys/class/power_supply`. -/
theorem batt_absent_graceful_witness :
    W0.powerSupplyExists = false ∧
    ∃ r, battRun W0 ModuleConfig.default = .ok r ∧
      (∃ f ∈ r.findings, f.severity = .info) ∧
      (r.overall_severity = .ok ∨ r.overall_severity = .info) :=
  ⟨rfl, batt_absent_graceful W0 ModuleConfig.default (Or.inl rfl)⟩

end Rustwhy
